import Mathlib

set_option maxRecDepth 8000

/-
Verification model of the LiftIQ repository (src/raspi_files and src/raspi_files/pi).

Modelling conventions, used throughout:

* Python floats are modelled by exact rationals.  Floating-point rounding is
  not modelled; numeric literals are read at face value (for instance the
  literal 0.1 denotes one tenth).
* Python math.sqrt is modelled by Rat.sqrt, which agrees with the exact
  (hence with the correctly-rounded floating-point) square root on every
  perfect-square input; every concrete evaluation below uses only such inputs.
* Python round with half-to-even tie-breaking is modelled by the Mathlib
  round function on rationals; the two differ only at exact half-ulp ties,
  which none of the statements below depend on.
* For the non-finite-input analysis of the orientation filter, Python floats
  are instead modelled by PyFloat: rationals extended with one NaN element
  that is absorbing for arithmetic and incomparable for ordering, matching
  IEEE-754 NaN propagation through the operations the source uses.
* File-system effects of Session.write_summary are modelled as an explicit
  operation trace (FsOp) applied to a map from paths to file contents.
* The trigonometric stages (GravityRemover, the Euler-angle conversion in
  OrientationFilter.get_euler_angles) and the TFLite interpreter call are
  treated as external inputs of the per-tick transition: the tick consumes
  their outputs (the vertical linear acceleration a_lin_z and, when an
  inference ran, the dequantized output vector) as input fields.
-/

namespace LiftIQ

/-- Python round(x, n) on rationals: scale, round to the nearest integer,
unscale.  See the tie-breaking caveat in the header comment. -/
def pyRound (n : ℕ) (x : ℚ) : ℚ :=
  ((round (x * (10 : ℚ) ^ n) : ℤ) : ℚ) / (10 : ℚ) ^ n

/-- Source clamp(v, lo, hi) from ws_reps_server.py. -/
def clamp (v lo hi : ℚ) : ℚ :=
  if v < lo then lo else if v > hi then hi else v

/-- Source compute_loss_pct(values) from ws_reps_server.py: percentage drop
from the first to the last element, clamped to the unit percentage range. -/
def compute_loss_pct (values : List ℚ) : Option ℚ :=
  if values.length < 2 then none
  else
    let first := values.headI
    let last := (values.getLast?).getD 0
    if first ≤ 0 then none
    else some (pyRound 2 (clamp ((1 - last / first) * 100) 0 100))

/-- Python max over a (nonempty) list of rationals. -/
def pyMax (l : List ℚ) : ℚ := l.foldl max l.headI

/-- Python list.index: index of the first occurrence of x. -/
def pyIndex (l : List ℚ) (x : ℚ) : ℕ := l.findIdx (fun v => v == x)

/-- numpy argmax: index of the first occurrence of the maximum. -/
def npArgmax (y : List ℚ) : ℕ := pyIndex y (pyMax y)

/- ===================== RepCounter (rep_counter.py) ===================== -/

/-- The two values of RepCounter.state in rep_counter.py. -/
inductive RCState
  | WAITING
  | MOVING
deriving DecidableEq, Repr

structure RepCounter where
  threshold : ℚ
  min_rep_time : ℚ
  alpha : ℚ
  filtered : ℚ
  state : RCState
  last_rep_time : ℚ
  reps : ℕ
deriving DecidableEq, Repr

/-- RepCounter.__init__ from rep_counter.py. -/
def RepCounter.new (threshold min_rep_time alpha : ℚ) : RepCounter :=
  ⟨threshold, min_rep_time, alpha, 0, .WAITING, 0, 0⟩

/-- Source RepCounter.update from rep_counter.py.  Returns the mutated
counter together with the returned triple (reps, filtered, state). -/
def RepCounter.update (c : RepCounter) (gx gy gz t : ℚ) :
    RepCounter × (ℕ × ℚ × RCState) :=
  let mag := Rat.sqrt (gx * gx + gy * gy + gz * gz)
  let f := c.alpha * mag + (1 - c.alpha) * c.filtered
  let c := { c with filtered := f }
  let c :=
    match c.state with
    | .WAITING => if f > c.threshold then { c with state := .MOVING } else c
    | .MOVING =>
        if f < c.threshold * 0.6 then
          let c :=
            if t - c.last_rep_time ≥ c.min_rep_time then
              { c with reps := c.reps + 1, last_rep_time := t }
            else c
          { c with state := .WAITING }
        else c
  (c, (c.reps, c.filtered, c.state))

/-- The rep-detector update exactly as claim C2 (spec section 4.6) words it,
written from the specification text, independently of the source translation
above; compared against RepCounter.update in the C2 theorem. -/
def repDetectorSpecUpdate (c : RepCounter) (gx gy gz t : ℚ) :
    RepCounter × (ℕ × ℚ × RCState) :=
  let m := Rat.sqrt (gx * gx + gy * gy + gz * gz)
  let f := c.alpha * m + (1 - c.alpha) * c.filtered
  match c.state with
  | .WAITING =>
      if f > c.threshold then
        let c' := { c with filtered := f, state := .MOVING }
        (c', (c'.reps, f, .MOVING))
      else
        let c' := { c with filtered := f }
        (c', (c'.reps, f, .WAITING))
  | .MOVING =>
      if f < 0.6 * c.threshold then
        if t - c.last_rep_time ≥ c.min_rep_time then
          let c' := { c with filtered := f, state := .WAITING,
                             reps := c.reps + 1, last_rep_time := t }
          (c', (c'.reps, f, .WAITING))
        else
          let c' := { c with filtered := f, state := .WAITING }
          (c', (c'.reps, f, .WAITING))
      else
        let c' := { c with filtered := f }
        (c', (c'.reps, f, .MOVING))

/- ===================== KalmanFilter1D (pi/kalman.py) ===================== -/

structure KalmanFilter1D where
  q : ℚ
  r : ℚ
  x : ℚ
  p : ℚ
  k : ℚ
deriving DecidableEq, Repr

/-- KalmanFilter1D.__init__ from pi/kalman.py. -/
def KalmanFilter1D.new (process_variance measurement_variance
    initial_estimate initial_error : ℚ) : KalmanFilter1D :=
  ⟨process_variance, measurement_variance, initial_estimate, initial_error, 0⟩

/-- Source KalmanFilter1D.update from pi/kalman.py. -/
def KalmanFilter1D.update (s : KalmanFilter1D) (measurement : ℚ) : KalmanFilter1D :=
  let x_pred := s.x
  let p_pred := s.p + s.q
  let k := p_pred / (p_pred + s.r)
  { s with k := k,
           x := x_pred + k * (measurement - x_pred),
           p := (1 - k) * p_pred }

/-- Source KalmanFilter1D.reset from pi/kalman.py. -/
def KalmanFilter1D.reset (s : KalmanFilter1D) (value error : ℚ) : KalmanFilter1D :=
  { s with x := value, p := error, k := 0 }

/- ================== VelocityEstimator (pi/velocity.py) ================== -/

/-- The per-rep metrics dict returned by VelocityEstimator.on_rep_complete. -/
structure RepVelMetrics where
  rep_number : ℕ
  peak_velocity : ℚ
  mean_concentric_velocity : ℚ
  mean_eccentric_velocity : ℚ
  time_to_peak : ℚ
deriving DecidableEq, Repr, Inhabited

structure VelocityEstimator where
  dt : ℚ
  use_kalman : Bool
  velocity : ℚ
  velocity_raw : ℚ
  kalman : KalmanFilter1D
  velocity_history : List ℚ
  time_history : List ℚ
  current_time : ℚ
  in_rep : Bool
  rep_velocities : List RepVelMetrics
  current_rep_velocities : List ℚ
  current_rep_times : List ℚ
  rep_count : ℕ
  zupt_threshold : ℚ
  zupt_count : ℕ
  zupt_samples_required : ℕ
  drift_estimate : ℚ
  drift_alpha : ℚ
deriving DecidableEq, Repr

/-- VelocityEstimator.__init__ from pi/velocity.py (default keyword values). -/
def VelocityEstimator.new (sample_rate_hz : ℚ) : VelocityEstimator where
  dt := 1 / sample_rate_hz
  use_kalman := true
  velocity := 0
  velocity_raw := 0
  kalman := KalmanFilter1D.new 0.001 0.1 0 1
  velocity_history := []
  time_history := []
  current_time := 0
  in_rep := false
  rep_velocities := []
  current_rep_velocities := []
  current_rep_times := []
  rep_count := 0
  zupt_threshold := 0.05
  zupt_count := 0
  zupt_samples_required := 5
  drift_estimate := 0
  drift_alpha := 0.001

/-- Source VelocityEstimator._apply_zupt from pi/velocity.py. -/
def VelocityEstimator._apply_zupt (v : VelocityEstimator) : VelocityEstimator :=
  { v with
    drift_estimate :=
      (1 - v.drift_alpha) * v.drift_estimate +
        v.drift_alpha * v.velocity_raw / max v.current_time 1,
    velocity := 0,
    velocity_raw := 0,
    kalman := v.kalman.reset 0 1 }

/-- Source VelocityEstimator.update from pi/velocity.py. -/
def VelocityEstimator.update (v : VelocityEstimator) (a_lin_vertical : ℚ)
    (is_stable : Bool) (timestamp : Option ℚ) : VelocityEstimator :=
  let v :=
    match timestamp with
    | some ts => { v with current_time := ts }
    | none => { v with current_time := v.current_time + v.dt }
  let v :=
    if is_stable then v._apply_zupt
    else
      let raw := v.velocity_raw + a_lin_vertical * v.dt - v.drift_estimate * v.dt
      if v.use_kalman then
        let kal := v.kalman.update raw
        { v with velocity_raw := raw, kalman := kal, velocity := kal.x }
      else
        { v with velocity_raw := raw, velocity := raw }
  let v :=
    { v with velocity_history := v.velocity_history ++ [v.velocity],
             time_history := v.time_history ++ [v.current_time] }
  if v.in_rep then
    { v with current_rep_velocities := v.current_rep_velocities ++ [v.velocity],
             current_rep_times := v.current_rep_times ++ [v.current_time] }
  else v

/-- Source VelocityEstimator.on_rep_start from pi/velocity.py. -/
def VelocityEstimator.on_rep_start (v : VelocityEstimator) : VelocityEstimator :=
  { v with in_rep := true, current_rep_velocities := [], current_rep_times := [] }

/-- Source VelocityEstimator.on_rep_complete from pi/velocity.py.  Returns the
mutated estimator and the metrics dict. -/
def VelocityEstimator.on_rep_complete (v : VelocityEstimator) :
    VelocityEstimator × RepVelMetrics :=
  let v := { v with in_rep := false, rep_count := v.rep_count + 1 }
  if v.current_rep_velocities.isEmpty then
    (v, ⟨v.rep_count, 0, 0, 0, 0⟩)
  else
    let velocities := v.current_rep_velocities
    let times := v.current_rep_times
    let peak_velocity := pyMax velocities
    let peak_idx := pyIndex velocities peak_velocity
    let time_to_peak :=
      if times.isEmpty then 0 else times.getD peak_idx 0 - times.headI
    let concentric := velocities.filter (fun x => 0 < x)
    let mean_concentric :=
      if concentric.isEmpty then 0 else concentric.sum / (concentric.length : ℚ)
    let eccentric := (velocities.filter (fun x => x < 0)).map (fun x => |x|)
    let mean_eccentric :=
      if eccentric.isEmpty then 0 else eccentric.sum / (eccentric.length : ℚ)
    let metrics : RepVelMetrics :=
      ⟨v.rep_count, pyRound 3 peak_velocity, pyRound 3 mean_concentric,
        pyRound 3 mean_eccentric, pyRound 3 time_to_peak⟩
    ({ v with rep_velocities := v.rep_velocities ++ [metrics] }, metrics)

/-- Source VelocityEstimator.get_velocity_loss_pct from pi/velocity.py. -/
def VelocityEstimator.get_velocity_loss_pct (v : VelocityEstimator) : Option ℚ :=
  if v.rep_velocities.length < 2 then none
  else
    let first_peak := (v.rep_velocities.headI).peak_velocity
    let last_peak := ((v.rep_velocities.getLast?).getD default).peak_velocity
    if first_peak ≤ 0 then none
    else some (pyRound 2 (max 0 (min 100 ((1 - last_peak / first_peak) * 100))))

/-- Source VelocityEstimator.reset from pi/velocity.py. -/
def VelocityEstimator.reset (v : VelocityEstimator) : VelocityEstimator :=
  { v with velocity := 0, velocity_raw := 0, kalman := v.kalman.reset 0 1,
           velocity_history := [], time_history := [], current_time := 0,
           in_rep := false, rep_velocities := [], current_rep_velocities := [],
           current_rep_times := [], rep_count := 0, drift_estimate := 0 }

/- ==================== ROMEstimator (pi/rom.py) ==================== -/

structure ROMEstimator where
  dt : ℚ
  position : ℚ
  rep_start_position : ℚ
  rom_per_rep : List ℚ
  current_rep_positions : List ℚ
  current_rep_min : ℚ
  current_rep_max : ℚ
  position_history : List ℚ
  current_time : ℚ
deriving DecidableEq, Repr

/-- ROMEstimator.__init__ from pi/rom.py. -/
def ROMEstimator.new (sample_rate_hz : ℚ) : ROMEstimator :=
  ⟨1 / sample_rate_hz, 0, 0, [], [], 0, 0, [], 0⟩

/-- Source ROMEstimator.update from pi/rom.py.  Returns the mutated estimator
and the returned displacement relative to the rep start. -/
def ROMEstimator.update (r : ROMEstimator) (velocity : ℚ) (timestamp : Option ℚ) :
    ROMEstimator × ℚ :=
  let r :=
    match timestamp with
    | some ts => { r with current_time := ts }
    | none => { r with current_time := r.current_time + r.dt }
  let pos := r.position + velocity * r.dt
  let r :=
    { r with position := pos,
             position_history := r.position_history ++ [pos],
             current_rep_positions := r.current_rep_positions ++ [pos],
             current_rep_min := min r.current_rep_min pos,
             current_rep_max := max r.current_rep_max pos }
  (r, r.position - r.rep_start_position)

/-- Source ROMEstimator.on_rep_start from pi/rom.py. -/
def ROMEstimator.on_rep_start (r : ROMEstimator) : ROMEstimator :=
  { r with rep_start_position := r.position,
           current_rep_positions := [r.position],
           current_rep_min := r.position,
           current_rep_max := r.position }

/-- Source ROMEstimator.on_rep_complete from pi/rom.py. -/
def ROMEstimator.on_rep_complete (r : ROMEstimator) : ROMEstimator × ℚ :=
  let rom := r.current_rep_max - r.current_rep_min
  ({ r with rom_per_rep := r.rom_per_rep ++ [rom] }, rom)

/-- Source ROMEstimator.get_rom_loss_pct from pi/rom.py. -/
def ROMEstimator.get_rom_loss_pct (r : ROMEstimator) : Option ℚ :=
  if r.rom_per_rep.length < 2 then none
  else
    let first := r.rom_per_rep.headI
    let last := (r.rom_per_rep.getLast?).getD 0
    if first ≤ 0 then none
    else some (pyRound 2 (max 0 (min 100 ((1 - last / first) * 100))))

/-- Source ROMEstimator.reset from pi/rom.py. -/
def ROMEstimator.reset (r : ROMEstimator) : ROMEstimator :=
  { r with position := 0, rep_start_position := 0, rom_per_rep := [],
           current_rep_positions := [], current_rep_min := 0,
           current_rep_max := 0, position_history := [], current_time := 0 }

/- ============ OrientationFilter (pi/orientation.py, Madgwick) ============ -/

/-- State of the Madgwick OrientationFilter, generic in the number type so
that the same source translation serves both the exact-rational model and the
NaN-propagation model used for claim C8. -/
structure OrientationFilter (α : Type) where
  sample_period : α
  beta : α
  q0 : α
  q1 : α
  q2 : α
  q3 : α
  _last_accel_magnitude : α
  _gyro_integration_only : Bool
deriving DecidableEq, Repr

/-- The exact value of the 64-bit float math.pi. -/
def pyMathPi : ℚ := 884279719003555 / 281474976710656

/-- Source OrientationFilter.update (quaternion part, pi/orientation.py lines
86 to 159), translated line by line over an arbitrary number type.  ofR embeds
literals, sqrtF models math.sqrt, ltB models the float less-than comparison.
The Euler-angle conversion performed on the returned value
(get_euler_angles, trigonometric) is outside this model; the stored state is
what the claims are about. -/
@[nospecialize] def OrientationFilter.update {α : Type} [Add α] [Sub α] [Mul α] [Div α] [Neg α]
    (ofR : ℚ → α) (sqrtF : α → α) (ltB : α → α → Bool)
    (st : OrientationFilter α) (ax ay az gx gy gz : α) : OrientationFilter α :=
  let q0 := st.q0
  let q1 := st.q1
  let q2 := st.q2
  let q3 := st.q3
  let gx_rad := gx * ofR pyMathPi / ofR 180
  let gy_rad := gy * ofR pyMathPi / ofR 180
  let gz_rad := gz * ofR pyMathPi / ofR 180
  let qDot1 := ofR 0.5 * (-q1 * gx_rad - q2 * gy_rad - q3 * gz_rad)
  let qDot2 := ofR 0.5 * (q0 * gx_rad + q2 * gz_rad - q3 * gy_rad)
  let qDot3 := ofR 0.5 * (q0 * gy_rad - q1 * gz_rad + q3 * gx_rad)
  let qDot4 := ofR 0.5 * (q0 * gz_rad + q1 * gy_rad - q2 * gx_rad)
  let accel_norm := sqrtF (ax * ax + ay * ay + az * az)
  let st := { st with _last_accel_magnitude := accel_norm }
  let step :=
    if ltB (ofR 4.9) accel_norm && ltB accel_norm (ofR 19.6) then
      let ax_n := ax / accel_norm
      let ay_n := ay / accel_norm
      let az_n := az / accel_norm
      let m2q0 := ofR 2 * q0
      let m2q1 := ofR 2 * q1
      let m2q2 := ofR 2 * q2
      let m2q3 := ofR 2 * q3
      let m4q0 := ofR 4 * q0
      let m4q1 := ofR 4 * q1
      let m4q2 := ofR 4 * q2
      let m8q1 := ofR 8 * q1
      let m8q2 := ofR 8 * q2
      let q0q0 := q0 * q0
      let q1q1 := q1 * q1
      let q2q2 := q2 * q2
      let q3q3 := q3 * q3
      let s0 := m4q0 * q2q2 + m2q2 * ax_n + m4q0 * q1q1 - m2q1 * ay_n
      let s1 := m4q1 * q3q3 - m2q3 * ax_n + ofR 4 * q0q0 * q1 - m2q0 * ay_n -
                  m4q1 + m8q1 * q1q1 + m8q1 * q2q2 + m4q1 * az_n
      let s2 := ofR 4 * q0q0 * q2 + m2q0 * ax_n + m4q2 * q3q3 - m2q3 * ay_n -
                  m4q2 + m8q2 * q1q1 + m8q2 * q2q2 + m4q2 * az_n
      let s3 := ofR 4 * q1q1 * q3 - m2q1 * ax_n + ofR 4 * q2q2 * q3 - m2q2 * ay_n
      let s_norm := sqrtF (s0 * s0 + s1 * s1 + s2 * s2 + s3 * s3)
      let sStep :=
        if ltB (ofR 0) s_norm then
          (s0 / s_norm, s1 / s_norm, s2 / s_norm, s3 / s_norm)
        else (s0, s1, s2, s3)
      (qDot1 - st.beta * sStep.1, qDot2 - st.beta * sStep.2.1,
       qDot3 - st.beta * sStep.2.2.1, qDot4 - st.beta * sStep.2.2.2, false)
    else
      (qDot1, qDot2, qDot3, qDot4, true)
  let q0 := q0 + step.1 * st.sample_period
  let q1 := q1 + step.2.1 * st.sample_period
  let q2 := q2 + step.2.2.1 * st.sample_period
  let q3 := q3 + step.2.2.2.1 * st.sample_period
  let q_norm := sqrtF (q0 * q0 + q1 * q1 + q2 * q2 + q3 * q3)
  { st with q0 := q0 / q_norm, q1 := q1 / q_norm, q2 := q2 / q_norm,
            q3 := q3 / q_norm, _gyro_integration_only := step.2.2.2.2 }

/-- Boolean rational comparison used to instantiate the generic update. -/
def ratLtB (a b : ℚ) : Bool := decide (a < b)

/-- OrientationFilter.__init__ over exact rationals (default quaternion). -/
def OrientationFilter.newQ (sample_rate_hz beta : ℚ) : OrientationFilter ℚ :=
  ⟨1 / sample_rate_hz, beta, 1, 0, 0, 0, 0, false⟩

/-- The orientation update over exact rationals (the pipeline model). -/
def OrientationFilter.updateQ (st : OrientationFilter ℚ)
    (ax ay az gx gy gz : ℚ) : OrientationFilter ℚ :=
  OrientationFilter.update id Rat.sqrt ratLtB st ax ay az gx gy gz

/-- Source OrientationFilter.reset with no argument: identity quaternion. -/
def OrientationFilter.resetQ (st : OrientationFilter ℚ) : OrientationFilter ℚ :=
  { st with q0 := 1, q1 := 0, q2 := 0, q3 := 0 }

/- ================ PyFloat: the NaN-propagation model (C8) ================ -/

/-- Python floats extended with NaN for the non-finite analysis: NaN is
absorbing for every arithmetic operation and incomparable for ordering,
exactly as IEEE-754 NaN behaves under the operations the source uses.
Infinities are not needed: the C8 statements inject NaN directly. -/
inductive PyFloat
  | nan
  | fin (x : ℚ)
deriving DecidableEq, Repr

instance : Add PyFloat :=
  ⟨fun a b => match a, b with | .fin x, .fin y => .fin (x + y) | _, _ => .nan⟩

instance : Sub PyFloat :=
  ⟨fun a b => match a, b with | .fin x, .fin y => .fin (x - y) | _, _ => .nan⟩

instance : Mul PyFloat :=
  ⟨fun a b => match a, b with | .fin x, .fin y => .fin (x * y) | _, _ => .nan⟩

instance : Neg PyFloat :=
  ⟨fun a => match a with | .fin x => .fin (-x) | .nan => .nan⟩

/-- Division; a finite division by a zero divisor would raise
ZeroDivisionError in Python and is unreachable in every statement below (the
rational convention value / 0 = 0 fills that unreachable case). -/
instance : Div PyFloat :=
  ⟨fun a b => match a, b with | .fin x, .fin y => .fin (x / y) | _, _ => .nan⟩

/-- math.sqrt on the NaN model (NaN propagates). -/
def PyFloat.sqrtPF : PyFloat → PyFloat
  | .nan => .nan
  | .fin x => .fin (Rat.sqrt x)

/-- IEEE less-than: every comparison involving NaN is false. -/
def PyFloat.ltB : PyFloat → PyFloat → Bool
  | .fin x, .fin y => decide (x < y)
  | _, _ => false

def PyFloat.ofR (q : ℚ) : PyFloat := .fin q

/-- The orientation update on the NaN-propagation model: the very same source
translation, instantiated at PyFloat. -/
def OrientationFilter.updatePF (st : OrientationFilter PyFloat)
    (ax ay az gx gy gz : PyFloat) : OrientationFilter PyFloat :=
  OrientationFilter.update PyFloat.ofR PyFloat.sqrtPF PyFloat.ltB st ax ay az gx gy gz

/-- OrientationFilter.__init__ on the NaN model. -/
def OrientationFilter.newPF (sample_rate_hz beta : ℚ) : OrientationFilter PyFloat :=
  ⟨.fin (1 / sample_rate_hz), .fin beta, .fin 1, .fin 0, .fin 0, .fin 0, .fin 0, false⟩

/- ========== LiftClassifierTFLite vote state (ws_reps_server.py) ========== -/

/-- Python dict lookup d.get(k, default) on an insertion-ordered association
list (Python dicts preserve insertion order). -/
def dictGet (d : List (String × ℚ)) (k : String) (dflt : ℚ) : ℚ :=
  match d.find? (fun kv => kv.1 == k) with
  | some kv => kv.2
  | none => dflt

/-- Python dict assignment d[k] = v: update in place preserving position, or
append as the newest key. -/
def dictSet (d : List (String × ℚ)) (k : String) (v : ℚ) : List (String × ℚ) :=
  if d.any (fun kv => kv.1 == k) then
    d.map (fun kv => if kv.1 == k then (kv.1, v) else kv)
  else d ++ [(k, v)]

/-- Python max(d, key=d.get): the first key attaining the maximal value in
iteration (= insertion) order, paired here with that maximal value. -/
def pyMaxByVal (d : List (String × ℚ)) : Option (String × ℚ) :=
  match d with
  | [] => none
  | kv :: rest => some (rest.foldl (fun b x => if b.2 < x.2 then x else b) kv)

/-- The classifier state relevant to the claims: labels and threshold from the
metadata, the current (last-inference) label and confidence, and the two
per-session vote dictionaries.  The ring buffer, the stride counters and the
TFLite interpreter handles are external to this model: an inference that ran
is represented by its dequantized output vector arriving as an input. -/
structure LiftClassifierTFLite where
  labels : List String
  conf_threshold : ℚ
  current_label : Option String
  current_confidence : ℚ
  _session_vote_sum : List (String × ℚ)
  _session_best_conf : List (String × ℚ)
deriving DecidableEq, Repr

/-- Source LiftClassifierTFLite._record_session_vote. -/
def LiftClassifierTFLite._record_session_vote (s : LiftClassifierTFLite)
    (label : String) (confidence : ℚ) : LiftClassifierTFLite :=
  if label = "" ∨ label = "unknown" then s
  else
    { s with
      _session_vote_sum :=
        dictSet s._session_vote_sum label
          (dictGet s._session_vote_sum label 0 + confidence),
      _session_best_conf :=
        dictSet s._session_best_conf label
          (max (dictGet s._session_best_conf label 0) confidence) }

/-- Source LiftClassifierTFLite.session_prediction. -/
def LiftClassifierTFLite.session_prediction (s : LiftClassifierTFLite) :
    Option String × ℚ :=
  match pyMaxByVal s._session_vote_sum with
  | none => (none, 0)
  | some kv => (some kv.1, dictGet s._session_best_conf kv.1 0)

/-- Source LiftClassifierTFLite.start_session. -/
def LiftClassifierTFLite.start_session (s : LiftClassifierTFLite) :
    LiftClassifierTFLite :=
  { s with _session_vote_sum := [], _session_best_conf := [] }

/-- Source LiftClassifierTFLite.reset_stream (the buffer and counters it also
clears are outside this model). -/
def LiftClassifierTFLite.reset_stream (s : LiftClassifierTFLite) :
    LiftClassifierTFLite :=
  { s with current_label := none, current_confidence := 0 }

/-- Tail of source LiftClassifierTFLite.push_sample (lines 377 to 398), from
the point where the interpreter produced the dequantized output vector y:
argmax, confidence extraction, threshold labelling, vote recording.  Returns
the mutated state and the (label, confidence, class_idx) of the returned
dict. -/
def LiftClassifierTFLite.push_sample_tail (s : LiftClassifierTFLite)
    (y : List ℚ) : LiftClassifierTFLite × (String × ℚ × ℕ) :=
  let pred_idx := npArgmax y
  let confidence := y.getD pred_idx 0
  let label0 :=
    if pred_idx < s.labels.length then s.labels.getD pred_idx ""
    else toString pred_idx
  let label := if confidence < s.conf_threshold then "unknown" else label0
  let s := { s with current_label := some label, current_confidence := confidence }
  let s := s._record_session_vote label confidence
  (s, (label, confidence, pred_idx))

/-- The label an inference with output y produces, given the labels list and
the confidence threshold (the projection of push_sample_tail used to state
which inferences count as votes). -/
def inferLabel (labels : List String) (thr : ℚ) (y : List ℚ) : String :=
  let pred_idx := npArgmax y
  let confidence := y.getD pred_idx 0
  let label0 :=
    if pred_idx < labels.length then labels.getD pred_idx ""
    else toString pred_idx
  if confidence < thr then "unknown" else label0

/- ==================== Session (ws_reps_server.py) ==================== -/

/-- One entry of Session.rep_breakdown (the bd dict built in imu_loop). -/
structure BreakdownEntry where
  rep : ℕ
  t : ℚ
  tempo_sec : Option ℚ
  peak_speed_proxy : ℚ
  peak_gyro : ℚ
  confidence : ℚ
  peak_velocity_ms : ℚ
  rom_m : ℚ
deriving DecidableEq, Repr

/-- The Session class of ws_reps_server.py.  The raw-log file object self.f is
modelled by the flag f_open (open handle or None). -/
structure Session where
  active : Bool
  session_id : Option String
  session_dir : Option String
  raw_path : Option String
  summary_path : Option String
  f_open : Bool
  start_ts : Option ℚ
  end_ts : Option ℚ
  reps : ℕ
  moving_time : ℚ
  rep_times : List ℚ
  rep_breakdown : List BreakdownEntry
  _last_motion_t : Option ℚ
  _last_rep_event_t : Option ℚ
  peak_gyro_per_rep : List ℚ
  _current_rep_peak : ℚ
  speed_proxy_per_rep : List ℚ
  _current_rep_speed_peak : ℚ
  _current_rep_speed_sum : ℚ
  _current_rep_speed_n : ℕ
  velocity_per_rep : List ℚ
  rom_per_rep : List ℚ
deriving DecidableEq, Repr

/-- Session.__init__ from ws_reps_server.py. -/
def Session.new : Session :=
  ⟨false, none, none, none, none, false, none, none, 0,
   0, [], [], none, none, [], 0, [], 0, 0, 0, [], []⟩

/-- Source Session._reset_metrics.  Note that it does not touch self.reps. -/
def Session._reset_metrics (s : Session) : Session :=
  { s with moving_time := 0, rep_times := [], rep_breakdown := [],
           _last_motion_t := none, _last_rep_event_t := none,
           peak_gyro_per_rep := [], _current_rep_peak := 0,
           speed_proxy_per_rep := [], _current_rep_speed_peak := 0,
           _current_rep_speed_sum := 0, _current_rep_speed_n := 0,
           velocity_per_rep := [], rom_per_rep := [] }

/-- Source Session.start.  The session id produced by make_session_id (a wall
clock read) and the wall-clock time.time() are inputs of the model. -/
def Session.start (s : Session) (sid : String) (now : ℚ) : Session :=
  let sdir := "sessions/session_" ++ sid
  Session._reset_metrics
    { s with session_id := some sid,
             session_dir := some sdir,
             raw_path := some (sdir ++ "/raw.jsonl"),
             summary_path := some (sdir ++ "/summary.json"),
             f_open := true,
             start_ts := some now,
             end_ts := none,
             reps := 0,
             active := true }

/-- Source Session.stop. -/
def Session.stop (s : Session) (now : ℚ) : Session :=
  { s with end_ts := some now, f_open := false, active := false,
           _last_motion_t := none }

/-- Source Session.update_tut.  mapped_state is the binary mapped state of the
loop (WAITING or MOVING). -/
def Session.update_tut (s : Session) (mapped_state : RCState) (t : ℚ) : Session :=
  if !s.active then { s with _last_motion_t := none }
  else if mapped_state = RCState.MOVING then
    match s._last_motion_t with
    | none => { s with _last_motion_t := some t }
    | some lm =>
        let dt := t - lm
        if 0 ≤ dt ∧ dt ≤ 0.5 then
          { s with moving_time := s.moving_time + dt, _last_motion_t := some t }
        else { s with _last_motion_t := some t }
  else { s with _last_motion_t := none }

/-- Source Session.update_peak. -/
def Session.update_peak (s : Session) (live_filt_abs : ℚ) : Session :=
  if !s.active then s
  else if live_filt_abs > s._current_rep_peak then
    { s with _current_rep_peak := live_filt_abs }
  else s

/-- Source Session.update_speed_proxy. -/
def Session.update_speed_proxy (s : Session) (live_filt_abs : ℚ) : Session :=
  if !s.active then s
  else
    let s :=
      if live_filt_abs > s._current_rep_speed_peak then
        { s with _current_rep_speed_peak := live_filt_abs }
      else s
    { s with _current_rep_speed_sum := s._current_rep_speed_sum + live_filt_abs,
             _current_rep_speed_n := s._current_rep_speed_n + 1 }

/-- Source Session.finalize_rep_peak. -/
def Session.finalize_rep_peak (s : Session) : Session × ℚ :=
  let peak := pyRound 2 s._current_rep_peak
  ({ s with peak_gyro_per_rep := s.peak_gyro_per_rep ++ [peak],
            _current_rep_peak := 0 }, peak)

/-- Source Session.finalize_speed_proxy. -/
def Session.finalize_speed_proxy (s : Session) : Session × ℚ :=
  let peak := pyRound 2 s._current_rep_speed_peak
  ({ s with speed_proxy_per_rep := s.speed_proxy_per_rep ++ [peak],
            _current_rep_speed_peak := 0, _current_rep_speed_sum := 0,
            _current_rep_speed_n := 0 }, peak)

/-- Source Session.on_rep_event (the rep_index argument is unused by the
source as well).  Returns the mutated session and the tempo. -/
def Session.on_rep_event (s : Session) (_rep_index : ℕ) (t : ℚ) :
    Session × Option ℚ :=
  match s._last_rep_event_t with
  | none => ({ s with _last_rep_event_t := some t }, none)
  | some lt =>
      let dt := t - lt
      if 0 < dt ∧ dt < 20 then
        ({ s with rep_times := s.rep_times ++ [dt], _last_rep_event_t := some t },
         some (pyRound 3 dt))
      else ({ s with _last_rep_event_t := some t }, none)

/-- Source Session.store_velocity_metric. -/
def Session.store_velocity_metric (s : Session) (peak_velocity : ℚ) : Session :=
  { s with velocity_per_rep := s.velocity_per_rep ++ [peak_velocity] }

/-- Source Session.store_rom_metric. -/
def Session.store_rom_metric (s : Session) (rom : ℚ) : Session :=
  { s with rom_per_rep := s.rom_per_rep ++ [rom] }

/-- Source Session.compute_avg_tempo. -/
def Session.compute_avg_tempo (s : Session) : Option ℚ :=
  if s.rep_times.isEmpty then none
  else some (s.rep_times.sum / (s.rep_times.length : ℚ))

/-- Source Session.compute_avg_peak_speed_proxy. -/
def Session.compute_avg_peak_speed_proxy (s : Session) : Option ℚ :=
  if s.speed_proxy_per_rep.isEmpty then none
  else some (s.speed_proxy_per_rep.sum / (s.speed_proxy_per_rep.length : ℚ))

/-- Source Session.compute_avg_velocity. -/
def Session.compute_avg_velocity (s : Session) : Option ℚ :=
  if s.velocity_per_rep.isEmpty then none
  else some (s.velocity_per_rep.sum / (s.velocity_per_rep.length : ℚ))

/-- Source Session.compute_avg_rom. -/
def Session.compute_avg_rom (s : Session) : Option ℚ :=
  if s.rom_per_rep.isEmpty then none
  else some (s.rom_per_rep.sum / (s.rom_per_rep.length : ℚ))

/- ============ Pipeline loop state (imu_loop, ws_reps_server.py) ============ -/

/-- The rep-detection thresholds fixed at the top of imu_loop. -/
def THRESHOLD : ℚ := 1200

def MIN_REP_TIME : ℚ := 0.6

def ALPHA : ℚ := 0.2

/-- The mutable state shared by imu_loop and handle_client: the module-level
globals (session, LAST_DETECTED_LIFT, LAST_LIFT_CONFIDENCE, the classifier)
together with the locals of imu_loop that persist across ticks. -/
structure Pipeline where
  live_counter : RepCounter
  session_counter : RepCounter
  sess : Session
  orientation : OrientationFilter ℚ
  velocity_estimator : VelocityEstimator
  rom_estimator : ROMEstimator
  lift_classifier : LiftClassifierTFLite
  detected_lift_label : Option String
  detected_lift_conf : ℚ
  last_detected_lift : Option String
  last_lift_confidence : ℚ
  last_session_reps : ℕ
  was_recording : Bool
deriving DecidableEq, Repr

/-- The initial state of imu_loop (lines 1103 to 1120) with empty session and
a classifier configured from the given metadata labels and threshold. -/
def Pipeline.init (labels : List String) (conf_threshold : ℚ) : Pipeline where
  live_counter := RepCounter.new THRESHOLD MIN_REP_TIME ALPHA
  session_counter := RepCounter.new THRESHOLD MIN_REP_TIME ALPHA
  sess := Session.new
  orientation := OrientationFilter.newQ 50 0.1
  velocity_estimator := VelocityEstimator.new 50
  rom_estimator := ROMEstimator.new 50
  lift_classifier := ⟨labels, conf_threshold, none, 0, [], []⟩
  detected_lift_label := none
  detected_lift_conf := 0
  last_detected_lift := none
  last_lift_confidence := 0
  last_session_reps := 0
  was_recording := false

/-- Reset-request handling, imu_loop lines 1130 to 1149: drains the
RESET_REQUESTED flag set by the reset command. -/
def Pipeline.resetHandling (ps : Pipeline) : Pipeline :=
  { ps with
    live_counter := RepCounter.new THRESHOLD MIN_REP_TIME ALPHA,
    session_counter := RepCounter.new THRESHOLD MIN_REP_TIME ALPHA,
    sess := Session._reset_metrics { ps.sess with reps := 0 },
    last_session_reps := 0,
    orientation := ps.orientation.resetQ,
    velocity_estimator := ps.velocity_estimator.reset,
    rom_estimator := ps.rom_estimator.reset,
    lift_classifier := ps.lift_classifier.reset_stream.start_session,
    detected_lift_label := none,
    detected_lift_conf := 0,
    last_detected_lift := none,
    last_lift_confidence := 0 }

/-- The recording-start transition, imu_loop lines 1220 to 1232, executed on a
tick that observes session.active true while was_recording is false. -/
def Pipeline.startTransition (ps : Pipeline) : Pipeline :=
  { ps with
    session_counter := RepCounter.new THRESHOLD MIN_REP_TIME ALPHA,
    sess := ps.sess._reset_metrics,
    last_session_reps := 0,
    velocity_estimator := ps.velocity_estimator.reset,
    rom_estimator := ps.rom_estimator.reset,
    lift_classifier := ps.lift_classifier.start_session,
    detected_lift_label := none,
    detected_lift_conf := 0,
    last_detected_lift := none,
    last_lift_confidence := 0 }

/-- The per-tick inputs of imu_loop: the IMU sample, the loop clock t, the
vertical linear acceleration produced by the (trigonometric, external to this
model) GravityRemover stage, whether the wall clock is still inside the 2 s
calibration window, and the dequantized classifier output vector in case the
adapter ran an inference this tick (buffer-fill and stride gating included). -/
structure TickInput where
  ax : ℚ
  ay : ℚ
  az : ℚ
  gx : ℚ
  gy : ℚ
  gz : ℚ
  t : ℚ
  a_lin_z : ℚ
  is_calibrating : Bool
  infer_out_vec : Option (List ℚ)
deriving DecidableEq, Repr

/-- The first half of one imu_loop iteration (lines 1182 to 1217): orientation
update, live rep counting, classifier sample, velocity and ROM integration,
TUT and peak tracking.  Broadcasting and raw-log writes are outputs and are
not modelled. -/
def Pipeline.preTick (ps : Pipeline) (inp : TickInput) : Pipeline :=
  let ps := { ps with orientation :=
    ps.orientation.updateQ inp.ax inp.ay inp.az inp.gx inp.gy inp.gz }
  let lcOut := ps.live_counter.update inp.gx inp.gy inp.gz inp.t
  let ps := { ps with live_counter := lcOut.1 }
  let live_filt := lcOut.2.2.1
  let mapped : RCState :=
    if lcOut.2.2.2 = RCState.MOVING then .MOVING else .WAITING
  let ps :=
    match inp.infer_out_vec with
    | none => ps
    | some y =>
        let push := ps.lift_classifier.push_sample_tail y
        { ps with lift_classifier := push.1,
                  detected_lift_label := some push.2.1,
                  detected_lift_conf := push.2.2.1,
                  last_detected_lift := some push.2.1,
                  last_lift_confidence := push.2.2.1 }
  let is_stable : Bool :=
    if inp.is_calibrating then false else decide (mapped = RCState.WAITING)
  let ps := { ps with velocity_estimator :=
    ps.velocity_estimator.update inp.a_lin_z is_stable (some inp.t) }
  let velocity := ps.velocity_estimator.velocity
  let ps := { ps with rom_estimator :=
    (ps.rom_estimator.update velocity (some inp.t)).1 }
  let live_abs := |live_filt|
  let sess' :=
    Session.update_speed_proxy
      ((ps.sess.update_tut mapped inp.t).update_peak live_abs) live_abs
  { ps with sess := sess' }

/-- The session-counter driven rep-event block of an imu_loop iteration
(lines 1237 to 1296), run after the was_recording latch has been updated.
The live filtered magnitude is read back from the live counter state (update
stores the returned value there); the recording-start transition does not
touch the live counter, so reading it here is equivalent to the source's
earlier read. -/
def Pipeline.recBlock (ps : Pipeline) (inp : TickInput) : Pipeline :=
  if ps.sess.active then
    let live_abs := |ps.live_counter.filtered|
    let scOut := ps.session_counter.update inp.gx inp.gy inp.gz inp.t
    let reps := scOut.2.1
    let ps := { ps with session_counter := scOut.1 }
    let ps :=
      if reps > ps.last_session_reps then
        let ev := ps.sess.on_rep_event reps inp.t
        let fp := ev.1.finalize_rep_peak
        let fs := fp.1.finalize_speed_proxy
        let vc := ps.velocity_estimator.on_rep_complete
        let rc := ps.rom_estimator.on_rep_complete
        let sess4 :=
          (fs.1.store_velocity_metric vc.2.peak_velocity).store_rom_metric rc.2
        let confidence := min 1 (max 0 (live_abs / 2000))
        let bd : BreakdownEntry :=
          ⟨reps, pyRound 3 inp.t, ev.2, fs.2, fp.2, pyRound 2 confidence,
           pyRound 3 vc.2.peak_velocity, pyRound 3 rc.2⟩
        { ps with sess := { sess4 with rep_breakdown := sess4.rep_breakdown ++ [bd] },
                  velocity_estimator := vc.1.on_rep_start,
                  rom_estimator := rc.1.on_rep_start }
      else ps
    { ps with sess := { ps.sess with reps := reps }, last_session_reps := reps }
  else ps

/-- The second half of one imu_loop iteration (lines 1220 to 1296): the
recording-start transition, the was_recording latch, and the rep-event
block. -/
def Pipeline.recTick (ps : Pipeline) (inp : TickInput) : Pipeline :=
  let ps1 :=
    if ps.sess.active && !ps.was_recording then ps.startTransition else ps
  Pipeline.recBlock { ps1 with was_recording := ps1.sess.active } inp

/-- One full iteration of the imu_loop while-loop body, from the reset check
to the end of the recording block.  reset_requested is the value of the
RESET_REQUESTED global at the top of the tick. -/
def Pipeline.tick (ps : Pipeline) (reset_requested : Bool) (inp : TickInput) :
    Pipeline :=
  ((if reset_requested then ps.resetHandling else ps).preTick inp).recTick inp

/- ============== Command handlers (handle_client, ws_reps_server.py) ============== -/

/-- The ack sent in response to a start command. -/
structure StartAck where
  ok : Bool
  note : Option String
  session_id : Option String
  dir : Option String
  file : Option String
deriving DecidableEq, Repr

/-- Source handle_client, action start (lines 864 to 878): allocate a session
only when none is active, otherwise acknowledge with note already_active. -/
def handleStart (ps : Pipeline) (sid : String) (now : ℚ) : Pipeline × StartAck :=
  if !ps.sess.active then
    let s' := ps.sess.start sid now
    ({ ps with sess := s' }, ⟨true, none, s'.session_id, s'.session_dir, s'.raw_path⟩)
  else
    (ps, ⟨true, some "already_active", ps.sess.session_id, none, none⟩)

/-- The session_summary message sent by the stop handler (the fields the
claims are about; the remaining numeric aggregates are reproduced as well). -/
structure SessionSummaryMsg where
  session_id : Option String
  total_reps : ℕ
  tut_sec : ℚ
  avg_tempo_sec : Option ℚ
  rep_times_sec : List ℚ
  output_loss_pct : Option ℚ
  speed_proxy_per_rep : List ℚ
  avg_peak_speed_proxy : Option ℚ
  speed_loss_pct : Option ℚ
  avg_velocity_ms : Option ℚ
  velocity_loss_pct : Option ℚ
  avg_rom_m : Option ℚ
  rom_loss_pct : Option ℚ
  detected_lift : Option String
  lift_confidence : ℚ
  summary_path : Option String
deriving DecidableEq, Repr

/-- Source handle_client, action stop (lines 880 to 927): on an active
session, stop it, write the summary, acknowledge, and emit the
session_summary message; otherwise acknowledge with note already_inactive.
The write of summary.json itself is modelled separately (claim C5). -/
def handleStop (ps : Pipeline) (now : ℚ) :
    Pipeline × (Bool × Option String) × Option SessionSummaryMsg :=
  if ps.sess.active then
    let sess1 := ps.sess.stop now
    let msg : SessionSummaryMsg :=
      { session_id := sess1.session_id,
        total_reps := sess1.reps,
        tut_sec := pyRound 3 sess1.moving_time,
        avg_tempo_sec := (sess1.compute_avg_tempo).map (pyRound 3),
        rep_times_sec := sess1.rep_times.map (pyRound 3),
        output_loss_pct := compute_loss_pct sess1.peak_gyro_per_rep,
        speed_proxy_per_rep := sess1.speed_proxy_per_rep.map (pyRound 2),
        avg_peak_speed_proxy := (sess1.compute_avg_peak_speed_proxy).map (pyRound 2),
        speed_loss_pct := compute_loss_pct sess1.speed_proxy_per_rep,
        avg_velocity_ms := (sess1.compute_avg_velocity).map (pyRound 3),
        velocity_loss_pct := compute_loss_pct sess1.velocity_per_rep,
        avg_rom_m := (sess1.compute_avg_rom).map (pyRound 3),
        rom_loss_pct := compute_loss_pct sess1.rom_per_rep,
        detected_lift := ps.last_detected_lift,
        lift_confidence := pyRound 3 ps.last_lift_confidence,
        summary_path := sess1.summary_path }
    ({ ps with sess := sess1 }, (true, none), some msg)
  else
    (ps, (true, some "already_inactive"), none)

/- ============== write_summary as a file-system trace (claim C5) ============== -/

/-- File-system operations performed by Session.write_summary (lines 813 to
816): truncating open of the temp file, a sequence of data writes to it
(json.dump writes in chunks), and the final os.replace rename. -/
inductive FsOp
  | openTrunc (p : String)
  | writeChunk (p : String) (chunk : String)
  | rename (src : String) (dst : String)
deriving DecidableEq, Repr

/-- A file system: contents by path, a file's content being the ordered
sequence of chunks written to it (their concatenation is the byte content). -/
def FileSys := String → Option (List String)

/-- Effect of one operation.  rename is os.replace: atomic move onto the
destination. -/
def FsOp.apply (fs : FileSys) : FsOp → FileSys
  | .openTrunc p => fun q => if q = p then some [] else fs q
  | .writeChunk p c => fun q => if q = p then some ((fs p).getD [] ++ [c]) else fs q
  | .rename src dst => fun q =>
      if q = dst then fs src else if q = src then none else fs q

def applyOps (fs : FileSys) (ops : List FsOp) : FileSys :=
  ops.foldl FsOp.apply fs

/-- The operation trace of Session.write_summary for a serialized summary
written to the sibling temp file in the given chunks, then renamed onto
summary.json; none when self.session_dir is unset (the source returns None
without touching the file system). -/
def Session.write_summary_trace (s : Session) (chunks : List String) :
    Option (List FsOp) :=
  match s.session_dir with
  | none => none
  | some _ =>
      let path := (s.summary_path).getD ""
      let tmp := path ++ ".tmp"
      some ([FsOp.openTrunc tmp] ++ chunks.map (FsOp.writeChunk tmp) ++
            [FsOp.rename tmp path])

/- ============== Derived definitions used by the claim statements ============== -/

/-- Finiteness of a modelled float. -/
def PyFloat.isFinite : PyFloat → Bool
  | .nan => false
  | .fin _ => true

/-- The consistency invariant of the recording subsystem: the four per-rep
metric sequences track the session rep count, and while a tick has observed
the active session (was_recording latched) the session counter and the loop
latch agree with it; a session the loop has not yet observed is fresh. -/
def RepInv (ps : Pipeline) : Prop :=
  ps.sess.peak_gyro_per_rep.length = ps.sess.reps ∧
  ps.sess.speed_proxy_per_rep.length = ps.sess.reps ∧
  ps.sess.velocity_per_rep.length = ps.sess.reps ∧
  ps.sess.rom_per_rep.length = ps.sess.reps ∧
  (ps.sess.active = true →
    (ps.was_recording = true →
      ps.session_counter.reps = ps.sess.reps ∧
      ps.last_session_reps = ps.sess.reps) ∧
    (ps.was_recording = false → ps.sess.reps = 0))

instance (ps : Pipeline) : Decidable (RepInv ps) := by
  unfold RepInv
  infer_instance

/-- Folding a sequence of inference output vectors through the classifier. -/
def runInferences (s : LiftClassifierTFLite) (ys : List (List ℚ)) :
    LiftClassifierTFLite :=
  ys.foldl (fun c y => (c.push_sample_tail y).1) s

/-- Whether an inference output contributes a vote: its resulting label is
neither empty nor the below-threshold label unknown. -/
def votePasses (labels : List String) (thr : ℚ) (y : List ℚ) : Bool :=
  !(inferLabel labels thr y == "" || inferLabel labels thr y == "unknown")

/-- The pure effect of one inference on the two vote dictionaries. -/
def voteStep (labels : List String) (thr : ℚ)
    (votes : List (String × ℚ) × List (String × ℚ)) (y : List ℚ) :
    List (String × ℚ) × List (String × ℚ) :=
  let label := inferLabel labels thr y
  let confidence := y.getD (npArgmax y) 0
  if label = "" ∨ label = "unknown" then votes
  else
    (dictSet votes.1 label (dictGet votes.1 label 0 + confidence),
     dictSet votes.2 label (max (dictGet votes.2 label 0) confidence))

/- ================== Concrete states used by the claims ================== -/

/-- A zero-motion tick input. -/
def zeroInput : TickInput := ⟨0, 0, 0, 0, 0, 0, 1, 0, false, none⟩

/-- A mid-session pipeline state: the session is active with two detected
reps, all per-rep sequences of length two, and the counters in sync, as the
loop produces after two reps of a recorded session. -/
def c1cex : Pipeline :=
  let P := Pipeline.init ["A", "B"] 0.6
  let sess1 : Session :=
    { P.sess with
      active := true
      session_id := some "S1"
      session_dir := some "sessions/session_S1"
      f_open := true
      reps := 2
      peak_gyro_per_rep := [1500, 1400]
      speed_proxy_per_rep := [1500, 1400]
      velocity_per_rep := [1, 9/10]
      rom_per_rep := [1/2, 2/5] }
  let sc1 : RepCounter :=
    { P.session_counter with reps := 2, last_rep_time := 1, filtered := 100 }
  { P with
    sess := sess1
    session_counter := sc1
    last_session_reps := 2
    was_recording := true }

/-- An active pipeline state in which the velocity and ROM estimators carry
nonzero integrated state. -/
def c3cex : Pipeline :=
  let P := Pipeline.init ["A", "B"] 0.6
  let ve1 : VelocityEstimator :=
    { P.velocity_estimator with velocity := 1, velocity_raw := 1 }
  { P with
    sess := { P.sess with active := true }
    velocity_estimator := ve1
    rom_estimator := { P.rom_estimator with position := 1/2 } }

/-- An active recording state for the classifier-vote scenario. -/
def c4base : Pipeline :=
  let P := Pipeline.init ["A", "B"] 0.6
  let sess4 : Session :=
    { P.sess with
      active := true
      session_id := some "S4"
      session_dir := some "sessions/session_S4"
      summary_path := some "sessions/session_S4/summary.json"
      f_open := true }
  { P with sess := sess4, was_recording := true }

/-- A fresh classifier with labels A and B and the default threshold 0.6. -/
def c4cl0 : LiftClassifierTFLite := ⟨["A", "B"], 6/10, none, 0, [], []⟩

/-- First inference: output [0.7, 0.3], hence label A with confidence 0.7. -/
def c4push1 : LiftClassifierTFLite × (String × ℚ × ℕ) :=
  c4cl0.push_sample_tail [7/10, 3/10]

/-- Second inference: output [0.7, 0.2], again label A with confidence 0.7. -/
def c4push2 : LiftClassifierTFLite × (String × ℚ × ℕ) :=
  c4push1.1.push_sample_tail [7/10, 1/5]

/-- Third inference: output [0.1, 0.9], label B with confidence 0.9; the vote
sums are now A: 1.4, B: 0.9 while the most recent label is B. -/
def c4push3 : LiftClassifierTFLite × (String × ℚ × ℕ) :=
  c4push2.1.push_sample_tail [1/10, 9/10]

/-- The pipeline state at the end of that session: the classifier carries the
accumulated votes, and the LAST_DETECTED_LIFT and LAST_LIFT_CONFIDENCE
globals carry the most recent inference result, exactly as imu_loop assigns
them from the push_sample return value. -/
def c4ps : Pipeline :=
  { c4base with
    lift_classifier := c4push3.1
    last_detected_lift := some c4push3.2.1
    last_lift_confidence := c4push3.2.2.1 }

/-- A Kalman state at the stationary error covariance for q = 1, r = 2:
p = 1 satisfies p * (p + q) = q * r. -/
def kalmanStar : KalmanFilter1D := ⟨1, 2, 0, 1, 1/2⟩

/-- The orientation filter as imu_loop constructs it, on the NaN model. -/
def c8init : OrientationFilter PyFloat := OrientationFilter.newPF 50 0.1

/-- An active pipeline for the already-active start witness. -/
def c6ps : Pipeline :=
  { Pipeline.init [] 0.6 with sess := Session.new.start "2026-01-01T00-00-00Z" 0 }

/- ======================== Theorems ======================== -/

/-- C2: on every input sample the rep-detector update computes the raw
magnitude as the square root of the summed squared rates, filters it with the
exponential moving average, performs exactly the WAITING and MOVING
transitions the specification describes (threshold strictly exceeded to enter
MOVING; below 0.6 of the threshold to leave it, counting a rep and storing
last_rep_t exactly when the debounce interval has elapsed; everything else
unchanged), and returns the triple (rep_count, filtered, state): the source
update coincides with the specification-worded update on every input. -/
theorem C2_rep_detector_update_matches_spec (c : RepCounter) (gx gy gz t : ℚ) :
    c.update gx gy gz t = repDetectorSpecUpdate c gx gy gz t := by
  have hc : c.threshold * 0.6 = 0.6 * c.threshold := mul_comm _ _
  simp only [RepCounter.update, repDetectorSpecUpdate, hc]
  cases c.state <;> split_ifs <;> rfl

/-- C6: a start command received while a session is already active replies
with an acknowledgement carrying note already_active and the existing session
id, and leaves the whole pipeline state, in particular the session record
(id, directory, paths, log handle), unchanged. -/
theorem C6_start_while_active_no_alloc (ps : Pipeline) (sid : String) (now : ℚ)
    (h : ps.sess.active = true) :
    handleStart ps sid now =
      (ps, ⟨true, some "already_active", ps.sess.session_id, none, none⟩) := by
  unfold handleStart
  rw [h]
  rfl

/-- Witness for C6 at a concrete active session. -/
theorem C6_start_while_active_no_alloc_witness :
    c6ps.sess.active = true ∧
    handleStart c6ps "2026-01-01T00-05-00Z" 5 =
      (c6ps, ⟨true, some "already_active", c6ps.sess.session_id, none, none⟩) :=
  ⟨by decide, C6_start_while_active_no_alloc c6ps "2026-01-01T00-05-00Z" 5 (by decide)⟩

/-- C3 counterexample: the claim states that on the idle-to-active transition
the pipeline filters, among them the velocity and ROM estimators, are left
unchanged; on a concrete running state carrying nonzero integrated velocity
and position, the transition zeroes both estimators, so they are changed. -/
theorem C3_counterexample :
    c3cex.sess.active = true ∧
    c3cex.velocity_estimator.velocity = 1 ∧
    (c3cex.startTransition).velocity_estimator.velocity = 0 ∧
    (c3cex.startTransition).velocity_estimator ≠ c3cex.velocity_estimator ∧
    c3cex.rom_estimator.position = 1/2 ∧
    (c3cex.startTransition).rom_estimator.position = 0 ∧
    (c3cex.startTransition).rom_estimator ≠ c3cex.rom_estimator := by
  refine ⟨rfl, rfl, rfl, fun h => ?_, rfl, rfl, fun h => ?_⟩
  · have h2 : (0 : ℚ) = 1 := congrArg VelocityEstimator.velocity h
    norm_num at h2
  · have h2 : (0 : ℚ) = 1 / 2 := congrArg ROMEstimator.position h
    norm_num at h2

/-- C3 amended: on the idle-to-active transition the per-session state (the
session metric accumulators, the session rep counter, the loop latch, the
classifier vote tallies, the detected-lift cache) is reset, and additionally
the velocity estimator and the ROM estimator are fully reset to their initial
state; only the orientation filter and the live rep counter are left
unchanged, for every start observed while the pipeline is running. -/
theorem C3_amended_start_transition_effect (ps : Pipeline) :
    (ps.startTransition).orientation = ps.orientation ∧
    (ps.startTransition).live_counter = ps.live_counter ∧
    (ps.startTransition).sess = ps.sess._reset_metrics ∧
    (ps.startTransition).sess.reps = ps.sess.reps ∧
    (ps.startTransition).sess.active = ps.sess.active ∧
    (ps.startTransition).sess.moving_time = 0 ∧
    (ps.startTransition).sess.rep_times = [] ∧
    (ps.startTransition).sess.peak_gyro_per_rep = [] ∧
    (ps.startTransition).sess.speed_proxy_per_rep = [] ∧
    (ps.startTransition).sess.velocity_per_rep = [] ∧
    (ps.startTransition).sess.rom_per_rep = [] ∧
    (ps.startTransition).velocity_estimator = ps.velocity_estimator.reset ∧
    (ps.startTransition).rom_estimator = ps.rom_estimator.reset ∧
    (ps.startTransition).lift_classifier._session_vote_sum = [] ∧
    (ps.startTransition).lift_classifier._session_best_conf = [] ∧
    (ps.startTransition).lift_classifier.labels = ps.lift_classifier.labels ∧
    (ps.startTransition).session_counter = RepCounter.new THRESHOLD MIN_REP_TIME ALPHA ∧
    (ps.startTransition).last_session_reps = 0 ∧
    (ps.startTransition).detected_lift_label = none ∧
    (ps.startTransition).last_detected_lift = none :=
  ⟨rfl, rfl, rfl, rfl, rfl, rfl, rfl, rfl, rfl, rfl, rfl, rfl, rfl, rfl, rfl,
   rfl, rfl, rfl, rfl, rfl⟩

/-- Unfolding lemma: the gain computed by one Kalman update. -/
theorem KalmanFilter1D.update_k_eq (s : KalmanFilter1D) (m : ℚ) :
    (s.update m).k = (s.p + s.q) / (s.p + s.q + s.r) := rfl

/-- Unfolding lemma: the error covariance after one Kalman update. -/
theorem KalmanFilter1D.update_p_eq (s : KalmanFilter1D) (m : ℚ) :
    (s.update m).p = (1 - (s.p + s.q) / (s.p + s.q + s.r)) * (s.p + s.q) := rfl

theorem KalmanFilter1D.update_q_eq (s : KalmanFilter1D) (m : ℚ) :
    (s.update m).q = s.q := rfl

theorem KalmanFilter1D.update_r_eq (s : KalmanFilter1D) (m : ℚ) :
    (s.update m).r = s.r := rfl

/-- The covariance after an update in closed form. -/
theorem KalmanFilter1D.update_p_closed (s : KalmanFilter1D) (m : ℚ)
    (hpos : 0 < s.p + s.q + s.r) :
    (s.update m).p = s.r * (s.p + s.q) / (s.p + s.q + s.r) := by
  rw [KalmanFilter1D.update_p_eq]
  field_simp

/-- The map x to x / (x + r) is monotone on positives. -/
theorem gain_mono_aux (r a b : ℚ) (hr : 0 < r) (ha : 0 < a) (hab : a ≤ b) :
    a / (a + r) ≤ b / (b + r) := by
  rw [div_le_div_iff (by linarith) (by linarith)]
  nlinarith

/-- C9 counterexample: the claim says the gain monotonically approaches
q / (q + r).  At q = 1, r = 2 the state with covariance p = 1 is an exact
fixed point of the update: every update returns the state unchanged with gain
one half forever, while q / (q + r) is one third, so the gain never
approaches q / (q + r). -/
theorem C9_counterexample :
    KalmanFilter1D.update kalmanStar 0 = kalmanStar ∧
    kalmanStar.k = 1 / 2 ∧
    kalmanStar.q / (kalmanStar.q + kalmanStar.r) = 1 / 3 ∧
    (1 : ℚ) / 2 ≠ 1 / 3 ∧
    kalmanStar.p * (kalmanStar.p + kalmanStar.q) = kalmanStar.q * kalmanStar.r := by
  refine ⟨?_, rfl, by norm_num [kalmanStar], by norm_num, by norm_num [kalmanStar]⟩
  norm_num [KalmanFilter1D.update, kalmanStar]

/-- C9 amended: for process variance q greater than zero, measurement variance
r greater than zero and error covariance p at least zero, the gain computed on
every update lies strictly between 0 and 1, the covariance stays nonnegative,
and over successive updates the gain monotonically approaches the stationary
gain, the one attained where p * (p + q) = q * r (which differs from
q / (q + r) whenever q is positive): below the stationary covariance the
covariance and the gain are nondecreasing and stay below it, above it they
are nonincreasing and stay above it. -/
theorem C9_amended_kalman_gain (s : KalmanFilter1D) (m m2 : ℚ)
    (hq : 0 < s.q) (hr : 0 < s.r) (hp : 0 ≤ s.p) :
    (0 < (s.update m).k ∧ (s.update m).k < 1) ∧
    0 ≤ (s.update m).p ∧
    (s.p * (s.p + s.q) ≤ s.q * s.r →
      s.p ≤ (s.update m).p ∧
      (s.update m).p * ((s.update m).p + s.q) ≤ s.q * s.r ∧
      (s.update m).k ≤ ((s.update m).update m2).k) ∧
    (s.q * s.r ≤ s.p * (s.p + s.q) →
      (s.update m).p ≤ s.p ∧
      s.q * s.r ≤ (s.update m).p * ((s.update m).p + s.q) ∧
      ((s.update m).update m2).k ≤ (s.update m).k) := by
  have hu : 0 < s.p + s.q := by linarith
  have hden : 0 < s.p + s.q + s.r := by linarith
  have hp' : (s.update m).p = s.r * (s.p + s.q) / (s.p + s.q + s.r) :=
    s.update_p_closed m hden
  have hppos : 0 < (s.update m).p := by
    rw [hp']
    positivity
  have hknext : ((s.update m).update m2).k =
      ((s.update m).p + s.q) / ((s.update m).p + s.q + s.r) := by
    rw [KalmanFilter1D.update_k_eq, KalmanFilter1D.update_q_eq,
        KalmanFilter1D.update_r_eq]
  have hD2 : 0 < (s.p + s.q + s.r) * (s.p + s.q + s.r) := by positivity
  have key : (s.update m).p * ((s.update m).p + s.q) *
      ((s.p + s.q + s.r) * (s.p + s.q + s.r)) =
      s.r * (s.p + s.q) * (s.r * (s.p + s.q) + s.q * (s.p + s.q + s.r)) := by
    rw [hp']
    field_simp
  refine ⟨⟨?_, ?_⟩, hppos.le, fun hle => ?_, fun hge => ?_⟩
  · rw [KalmanFilter1D.update_k_eq]
    positivity
  · rw [KalmanFilter1D.update_k_eq, div_lt_one hden]
    linarith
  · -- below the stationary covariance: p and the gain are nondecreasing
    have h1 : s.p ≤ (s.update m).p := by
      rw [hp', le_div_iff₀ hden]
      nlinarith
    have h2 : (s.update m).p * ((s.update m).p + s.q) ≤ s.q * s.r := by
      rw [← mul_le_mul_right hD2, key]
      nlinarith [mul_nonneg (mul_nonneg hr.le hr.le) (sub_nonneg.mpr hle)]
    have h3 : (s.update m).k ≤ ((s.update m).update m2).k := by
      rw [hknext, KalmanFilter1D.update_k_eq]
      exact gain_mono_aux s.r _ _ hr hu (by linarith)
    exact ⟨h1, h2, h3⟩
  · -- above the stationary covariance: p and the gain are nonincreasing
    have h1 : (s.update m).p ≤ s.p := by
      rw [hp', div_le_iff₀ hden]
      nlinarith
    have h2 : s.q * s.r ≤ (s.update m).p * ((s.update m).p + s.q) := by
      rw [← mul_le_mul_right hD2, key]
      nlinarith [mul_nonneg (mul_nonneg hr.le hr.le) (sub_nonneg.mpr hge)]
    have h3 : ((s.update m).update m2).k ≤ (s.update m).k := by
      rw [hknext, KalmanFilter1D.update_k_eq]
      exact gain_mono_aux s.r _ _ hr (by positivity) (by linarith)
    exact ⟨h1, h2, h3⟩

/-- Witness for the C9 amended theorem at concrete parameters. -/
theorem C9_amended_kalman_gain_witness :
    0 < ((⟨1, 2, 0, 1, 0⟩ : KalmanFilter1D).update 0).k ∧
    ((⟨1, 2, 0, 1, 0⟩ : KalmanFilter1D).update 0).k < 1 :=
  (C9_amended_kalman_gain ⟨1, 2, 0, 1, 0⟩ 0 0 (by norm_num) (by norm_num)
    (by norm_num)).1

/-- Rounding to two decimals keeps values inside the percentage range. -/
theorem pyRound2_mem (x : ℚ) (h0 : 0 ≤ x) (h1 : x ≤ 100) :
    0 ≤ pyRound 2 x ∧ pyRound 2 x ≤ 100 := by
  have hr0 : (0 : ℤ) ≤ round (x * (10 : ℚ) ^ 2) := by
    rw [round_eq]
    refine Int.floor_nonneg.mpr ?_
    nlinarith
  have hfl : (⌊x * (10 : ℚ) ^ 2 + 1 / 2⌋ : ℤ) ≤ ⌊(20001 : ℚ) / 2⌋ :=
    Int.floor_le_floor (by nlinarith)
  have hval : (⌊(20001 : ℚ) / 2⌋ : ℤ) = 10000 := by
    rw [Int.floor_eq_iff]
    norm_num
  have hr1 : round (x * (10 : ℚ) ^ 2) ≤ 10000 := by
    rw [round_eq]
    omega
  unfold pyRound
  constructor
  · have : (0 : ℚ) ≤ ((round (x * (10 : ℚ) ^ 2) : ℤ) : ℚ) := by exact_mod_cast hr0
    positivity
  · have hc : ((round (x * (10 : ℚ) ^ 2) : ℤ) : ℚ) ≤ 10000 := by exact_mod_cast hr1
    have hpow : ((10 : ℚ) ^ 2) = 100 := by norm_num
    rw [hpow] at hc ⊢
    linarith

/-- The clamp used by compute_loss_pct stays inside the percentage range. -/
theorem clamp_pct_mem (v : ℚ) : 0 ≤ clamp v 0 100 ∧ clamp v 0 100 ≤ 100 := by
  unfold clamp
  split_ifs <;> constructor <;> linarith

/-- The min-max clamp used by the estimators stays inside the range. -/
theorem maxmin_pct_mem (v : ℚ) :
    0 ≤ max 0 (min 100 v) ∧ max 0 (min 100 v) ≤ 100 := by
  exact ⟨le_max_left 0 _, max_le (by norm_num) (min_le_left 100 v)⟩

/-- C7: for each of the three loss computations (the server-side
compute_loss_pct, VelocityEstimator.get_velocity_loss_pct and
ROMEstimator.get_rom_loss_pct), the result is None exactly when fewer than two
completed reps are recorded or the first rep's value is not positive, and any
returned value lies between 0 and 100 inclusive. -/
theorem C7_loss_pct_none_iff_and_in_range (values : List ℚ)
    (v : VelocityEstimator) (r : ROMEstimator) :
    (compute_loss_pct values = none ↔
      values.length < 2 ∨ values.headI ≤ 0) ∧
    0 ≤ (compute_loss_pct values).getD 0 ∧
    (compute_loss_pct values).getD 0 ≤ 100 ∧
    (v.get_velocity_loss_pct = none ↔
      v.rep_velocities.length < 2 ∨ (v.rep_velocities.headI).peak_velocity ≤ 0) ∧
    0 ≤ (v.get_velocity_loss_pct).getD 0 ∧
    (v.get_velocity_loss_pct).getD 0 ≤ 100 ∧
    (r.get_rom_loss_pct = none ↔
      r.rom_per_rep.length < 2 ∨ r.rom_per_rep.headI ≤ 0) ∧
    0 ≤ (r.get_rom_loss_pct).getD 0 ∧
    (r.get_rom_loss_pct).getD 0 ≤ 100 := by
  refine ⟨?_, ?_, ?_, ?_, ?_, ?_, ?_, ?_, ?_⟩
  · simp only [compute_loss_pct]
    split_ifs with h1 h2 <;> simp_all
  · simp only [compute_loss_pct]
    split_ifs with h1 h2 <;>
      simp only [Option.getD_none, Option.getD_some, le_refl]
    exact (pyRound2_mem _ (clamp_pct_mem _).1 (clamp_pct_mem _).2).1
  · simp only [compute_loss_pct]
    split_ifs with h1 h2 <;> simp only [Option.getD_none, Option.getD_some]
    · norm_num
    · norm_num
    · exact (pyRound2_mem _ (clamp_pct_mem _).1 (clamp_pct_mem _).2).2
  · simp only [VelocityEstimator.get_velocity_loss_pct]
    split_ifs with h1 h2 <;> simp_all
  · simp only [VelocityEstimator.get_velocity_loss_pct]
    split_ifs with h1 h2 <;>
      simp only [Option.getD_none, Option.getD_some, le_refl]
    exact (pyRound2_mem _ (maxmin_pct_mem _).1 (maxmin_pct_mem _).2).1
  · simp only [VelocityEstimator.get_velocity_loss_pct]
    split_ifs with h1 h2 <;> simp only [Option.getD_none, Option.getD_some]
    · norm_num
    · norm_num
    · exact (pyRound2_mem _ (maxmin_pct_mem _).1 (maxmin_pct_mem _).2).2
  · simp only [ROMEstimator.get_rom_loss_pct]
    split_ifs with h1 h2 <;> simp_all
  · simp only [ROMEstimator.get_rom_loss_pct]
    split_ifs with h1 h2 <;>
      simp only [Option.getD_none, Option.getD_some, le_refl]
    exact (pyRound2_mem _ (maxmin_pct_mem _).1 (maxmin_pct_mem _).2).1
  · simp only [ROMEstimator.get_rom_loss_pct]
    split_ifs with h1 h2 <;> simp only [Option.getD_none, Option.getD_some]
    · norm_num
    · norm_num
    · exact (pyRound2_mem _ (maxmin_pct_mem _).1 (maxmin_pct_mem _).2).2

/-- push_sample_tail does not change the configured labels. -/
theorem push_sample_tail_labels (s : LiftClassifierTFLite) (y : List ℚ) :
    ((s.push_sample_tail y).1).labels = s.labels := by
  unfold LiftClassifierTFLite.push_sample_tail LiftClassifierTFLite._record_session_vote
  dsimp only
  split_ifs <;> rfl

/-- push_sample_tail does not change the configured threshold. -/
theorem push_sample_tail_threshold (s : LiftClassifierTFLite) (y : List ℚ) :
    ((s.push_sample_tail y).1).conf_threshold = s.conf_threshold := by
  unfold LiftClassifierTFLite.push_sample_tail LiftClassifierTFLite._record_session_vote
  dsimp only
  split_ifs <;> rfl

/-- The vote dictionaries after push_sample_tail are the pure vote step. -/
theorem push_sample_tail_votes (s : LiftClassifierTFLite) (y : List ℚ) :
    (((s.push_sample_tail y).1)._session_vote_sum,
     ((s.push_sample_tail y).1)._session_best_conf) =
      voteStep s.labels s.conf_threshold
        (s._session_vote_sum, s._session_best_conf) y := by
  unfold LiftClassifierTFLite.push_sample_tail LiftClassifierTFLite._record_session_vote
    voteStep inferLabel
  dsimp only
  split_ifs <;> rfl

/-- The label returned by push_sample_tail is inferLabel. -/
theorem push_sample_tail_label (s : LiftClassifierTFLite) (y : List ℚ) :
    ((s.push_sample_tail y).2).1 = inferLabel s.labels s.conf_threshold y := by
  unfold LiftClassifierTFLite.push_sample_tail LiftClassifierTFLite._record_session_vote
    inferLabel
  dsimp only

/-- Folding inferences through the classifier acts on the vote dictionaries as
folding the pure vote step. -/
theorem runInferences_votes (ys : List (List ℚ)) :
    ∀ s : LiftClassifierTFLite,
      ((runInferences s ys)._session_vote_sum,
       (runInferences s ys)._session_best_conf) =
        ys.foldl (voteStep s.labels s.conf_threshold)
          (s._session_vote_sum, s._session_best_conf) := by
  induction ys with
  | nil => intro s; rfl
  | cons y ys ih =>
      intro s
      have step : runInferences s (y :: ys) = runInferences ((s.push_sample_tail y).1) ys := rfl
      rw [step, ih ((s.push_sample_tail y).1), push_sample_tail_labels,
          push_sample_tail_threshold, push_sample_tail_votes, List.foldl_cons]

/-- A failed vote predicate means the vote step is the identity. -/
theorem voteStep_skip (labels : List String) (thr : ℚ)
    (votes : List (String × ℚ) × List (String × ℚ)) (y : List ℚ)
    (h : votePasses labels thr y = false) :
    voteStep labels thr votes y = votes := by
  unfold votePasses at h
  simp only [Bool.not_eq_false', Bool.or_eq_true, beq_iff_eq] at h
  unfold voteStep
  rw [if_pos h]

/-- Filtering out the non-voting inferences does not change the vote fold. -/
theorem foldl_voteStep_filter (labels : List String) (thr : ℚ)
    (ys : List (List ℚ)) :
    ∀ votes, ys.foldl (voteStep labels thr) votes =
      (ys.filter (votePasses labels thr)).foldl (voteStep labels thr) votes := by
  induction ys with
  | nil => intro votes; rfl
  | cons y ys ih =>
      intro votes
      rw [List.foldl_cons, List.filter_cons]
      cases h : votePasses labels thr y with
      | true => rw [if_pos (by simp), List.foldl_cons, ih]
      | false => rw [voteStep_skip labels thr votes y h, if_neg (by simp), ih]

/-- C10: an inference whose resulting label is unknown (confidence below the
threshold) or empty leaves the session vote tally and the per-label
best-confidence map unchanged, so after any sequence of inferences the vote
state, and with it session_prediction, is exactly that produced by the
threshold-passing inferences alone. -/
theorem C10_unknown_inferences_leave_votes_unchanged (s : LiftClassifierTFLite)
    (conf : ℚ) (ys : List (List ℚ)) :
    s._record_session_vote "unknown" conf = s ∧
    s._record_session_vote "" conf = s ∧
    (runInferences s ys)._session_vote_sum =
      (runInferences s (ys.filter (votePasses s.labels s.conf_threshold)))._session_vote_sum ∧
    (runInferences s ys)._session_best_conf =
      (runInferences s (ys.filter (votePasses s.labels s.conf_threshold)))._session_best_conf ∧
    (runInferences s ys).session_prediction =
      (runInferences s (ys.filter (votePasses s.labels s.conf_threshold))).session_prediction := by
  have h1 : s._record_session_vote "unknown" conf = s := by
    unfold LiftClassifierTFLite._record_session_vote
    rw [if_pos (Or.inr rfl)]
  have h2 : s._record_session_vote "" conf = s := by
    unfold LiftClassifierTFLite._record_session_vote
    rw [if_pos (Or.inl rfl)]
  have hv := runInferences_votes ys s
  have hvf := runInferences_votes (ys.filter (votePasses s.labels s.conf_threshold)) s
  have hfold := foldl_voteStep_filter s.labels s.conf_threshold ys
    (s._session_vote_sum, s._session_best_conf)
  have hpair : ((runInferences s ys)._session_vote_sum,
      (runInferences s ys)._session_best_conf) =
      ((runInferences s (ys.filter (votePasses s.labels s.conf_threshold)))._session_vote_sum,
       (runInferences s (ys.filter (votePasses s.labels s.conf_threshold)))._session_best_conf) := by
    rw [hv, hvf, hfold]
  injection hpair with hsum hbest
  refine ⟨h1, h2, hsum, hbest, ?_⟩
  unfold LiftClassifierTFLite.session_prediction
  rw [hsum, hbest]

/- Evaluation lemmas for the NaN-propagation float model. -/

@[simp] theorem PyFloat.fin_add_fin (x y : ℚ) :
    PyFloat.fin x + PyFloat.fin y = PyFloat.fin (x + y) := rfl

@[simp] theorem PyFloat.nan_add (b : PyFloat) : PyFloat.nan + b = PyFloat.nan := rfl

@[simp] theorem PyFloat.add_nan (a : PyFloat) : a + PyFloat.nan = PyFloat.nan := by
  cases a <;> rfl

@[simp] theorem PyFloat.fin_sub_fin (x y : ℚ) :
    PyFloat.fin x - PyFloat.fin y = PyFloat.fin (x - y) := rfl

@[simp] theorem PyFloat.nan_sub (b : PyFloat) : PyFloat.nan - b = PyFloat.nan := rfl

@[simp] theorem PyFloat.sub_nan (a : PyFloat) : a - PyFloat.nan = PyFloat.nan := by
  cases a <;> rfl

@[simp] theorem PyFloat.fin_mul_fin (x y : ℚ) :
    PyFloat.fin x * PyFloat.fin y = PyFloat.fin (x * y) := rfl

@[simp] theorem PyFloat.nan_mul (b : PyFloat) : PyFloat.nan * b = PyFloat.nan := rfl

@[simp] theorem PyFloat.mul_nan (a : PyFloat) : a * PyFloat.nan = PyFloat.nan := by
  cases a <;> rfl

@[simp] theorem PyFloat.fin_div_fin (x y : ℚ) :
    PyFloat.fin x / PyFloat.fin y = PyFloat.fin (x / y) := rfl

@[simp] theorem PyFloat.nan_div (b : PyFloat) : PyFloat.nan / b = PyFloat.nan := rfl

@[simp] theorem PyFloat.div_nan (a : PyFloat) : a / PyFloat.nan = PyFloat.nan := by
  cases a <;> rfl

@[simp] theorem PyFloat.neg_fin (x : ℚ) : -PyFloat.fin x = PyFloat.fin (-x) := rfl

@[simp] theorem PyFloat.neg_nan : -PyFloat.nan = PyFloat.nan := rfl

@[simp] theorem PyFloat.sqrtPF_fin (x : ℚ) :
    PyFloat.sqrtPF (PyFloat.fin x) = PyFloat.fin (Rat.sqrt x) := rfl

@[simp] theorem PyFloat.sqrtPF_nan : PyFloat.sqrtPF PyFloat.nan = PyFloat.nan := rfl

@[simp] theorem PyFloat.ltB_fin_fin (x y : ℚ) :
    PyFloat.ltB (PyFloat.fin x) (PyFloat.fin y) = decide (x < y) := rfl

@[simp] theorem PyFloat.ltB_nan_left (b : PyFloat) :
    PyFloat.ltB PyFloat.nan b = false := by
  cases b <;> rfl

@[simp] theorem PyFloat.ltB_nan_right (a : PyFloat) :
    PyFloat.ltB a PyFloat.nan = false := by
  cases a <;> rfl

/-- C8 counterexample: the claim says non-finite inputs are replaced with zero
and a non-finite quaternion is reset to identity, so the stored quaternion is
finite after every update.  Feeding the update a NaN x-gyro rate (all other
inputs zero) from the identity state makes every stored quaternion component
NaN, not finite and not the identity, whereas the same call with the NaN input
replaced by zero would leave the identity quaternion; the source performs no
such replacement and no reset. -/
theorem C8_counterexample :
    (c8init.updatePF (.fin 0) (.fin 0) (.fin 0) .nan (.fin 0) (.fin 0)).q0 = PyFloat.nan ∧
    (c8init.updatePF (.fin 0) (.fin 0) (.fin 0) .nan (.fin 0) (.fin 0)).q1 = PyFloat.nan ∧
    (c8init.updatePF (.fin 0) (.fin 0) (.fin 0) .nan (.fin 0) (.fin 0)).q2 = PyFloat.nan ∧
    (c8init.updatePF (.fin 0) (.fin 0) (.fin 0) .nan (.fin 0) (.fin 0)).q3 = PyFloat.nan ∧
    PyFloat.isFinite ((c8init.updatePF (.fin 0) (.fin 0) (.fin 0) .nan (.fin 0) (.fin 0)).q0) = false ∧
    (c8init.updatePF (.fin 0) (.fin 0) (.fin 0) .nan (.fin 0) (.fin 0)).q0 ≠ PyFloat.fin 1 ∧
    (c8init.updatePF (.fin 0) (.fin 0) (.fin 0) (.fin 0) (.fin 0) (.fin 0)).q0 = PyFloat.fin 1 := by
  norm_num [c8init, OrientationFilter.newPF, OrientationFilter.updatePF,
    OrientationFilter.update, PyFloat.ofR, PyFloat.isFinite]
  decide

/-- C8 amended: the orientation update performs no non-finite sanitization and
no reset to identity.  A non-finite accelerometer input merely yields a
non-finite magnitude, which fails the 0.5 g to 2 g gate, so the update runs in
gyro-only mode with the quaternion untouched; a non-finite gyro input
propagates into the stored quaternion; and once the quaternion is non-finite a
further update leaves it non-finite instead of resetting it to identity. -/
theorem C8_amended_no_sanitization :
    (c8init.updatePF .nan (.fin 0) (.fin 0) (.fin 0) (.fin 0) (.fin 0))._gyro_integration_only = true ∧
    (c8init.updatePF .nan (.fin 0) (.fin 0) (.fin 0) (.fin 0) (.fin 0)).q0 = PyFloat.fin 1 ∧
    (c8init.updatePF .nan (.fin 0) (.fin 0) (.fin 0) (.fin 0) (.fin 0)).q1 = PyFloat.fin 0 ∧
    (c8init.updatePF .nan (.fin 0) (.fin 0) (.fin 0) (.fin 0) (.fin 0)).q2 = PyFloat.fin 0 ∧
    (c8init.updatePF .nan (.fin 0) (.fin 0) (.fin 0) (.fin 0) (.fin 0)).q3 = PyFloat.fin 0 ∧
    (c8init.updatePF .nan (.fin 0) (.fin 0) (.fin 0) (.fin 0) (.fin 0))._last_accel_magnitude = PyFloat.nan ∧
    (c8init.updatePF (.fin 0) (.fin 0) (.fin 0) .nan (.fin 0) (.fin 0)).q0 = PyFloat.nan ∧
    ((c8init.updatePF (.fin 0) (.fin 0) (.fin 0) .nan (.fin 0) (.fin 0)).updatePF
        (.fin 0) (.fin 0) (.fin 0) (.fin 0) (.fin 0) (.fin 0)).q0 = PyFloat.nan := by
  norm_num [c8init, OrientationFilter.newPF, OrientationFilter.updatePF,
    OrientationFilter.update, PyFloat.ofR]

/-- A path never equals itself with the temp suffix appended. -/
theorem path_ne_tmp (s : String) : s ≠ s ++ ".tmp" := by
  intro h
  have hlen := congrArg String.length h
  rw [String.length_append] at hlen
  have h4 : ".tmp".length = 4 := rfl
  omega

/-- Intermediate states of the chunk writes never touch the final path. -/
theorem writeChunks_other (tmp path : String) (hne : path ≠ tmp) :
    ∀ (cs : List String) (fs : FileSys),
      applyOps fs (cs.map (FsOp.writeChunk tmp)) path = fs path := by
  intro cs
  induction cs with
  | nil => intro fs; rfl
  | cons c cs ih =>
      intro fs
      have step : applyOps fs ((c :: cs).map (FsOp.writeChunk tmp)) path =
          applyOps (FsOp.apply fs (FsOp.writeChunk tmp c)) (cs.map (FsOp.writeChunk tmp)) path := rfl
      rw [step, ih]
      simp [FsOp.apply, hne]

/-- The chunk writes accumulate the full content in the temp file. -/
theorem writeChunks_tmp (tmp : String) :
    ∀ (cs : List String) (fs : FileSys) (c0 : List String), fs tmp = some c0 →
      applyOps fs (cs.map (FsOp.writeChunk tmp)) tmp = some (c0 ++ cs) := by
  intro cs
  induction cs with
  | nil =>
      intro fs c0 h
      simpa [applyOps] using h
  | cons c cs ih =>
      intro fs c0 h
      have step : applyOps fs ((c :: cs).map (FsOp.writeChunk tmp)) tmp =
          applyOps (FsOp.apply fs (FsOp.writeChunk tmp c)) (cs.map (FsOp.writeChunk tmp)) tmp := rfl
      rw [step, ih _ (c0 ++ [c]) (by simp [FsOp.apply, h])]
      simp

/-- Every prefix of the write-then-rename trace leaves the final path either
untouched (while the trailing part is nonempty) or holding the complete
content (once the trace, ending in the rename, has been consumed). -/
theorem atomic_inner (tmp path : String) (hne : path ≠ tmp) :
    ∀ (cs : List String) (fs : FileSys) (c0 : List String) (pre suf : List FsOp),
      fs tmp = some c0 →
      cs.map (FsOp.writeChunk tmp) ++ [FsOp.rename tmp path] = pre ++ suf →
      (suf ≠ [] → applyOps fs pre path = fs path) ∧
      (suf = [] → applyOps fs pre path = some (c0 ++ cs)) := by
  intro cs
  induction cs with
  | nil =>
      intro fs c0 pre suf htmp hsplit
      simp only [List.map_nil, List.nil_append] at hsplit
      rcases pre with _ | ⟨p0, pre'⟩
      · refine ⟨fun _ => rfl, fun hsuf => ?_⟩
        rw [hsuf] at hsplit
        simp at hsplit
      · injection hsplit with h1 h2
        subst h1
        obtain ⟨hp, hs⟩ := List.append_eq_nil.mp h2.symm
        subst hp
        subst hs
        refine ⟨fun h => absurd rfl h, fun _ => ?_⟩
        show (FsOp.apply fs (FsOp.rename tmp path)) path = some (c0 ++ [])
        simp [FsOp.apply, htmp]
  | cons c cs ih =>
      intro fs c0 pre suf htmp hsplit
      simp only [List.map_cons, List.cons_append] at hsplit
      rcases pre with _ | ⟨p0, pre'⟩
      · refine ⟨fun _ => rfl, fun hsuf => ?_⟩
        rw [hsuf] at hsplit
        simp at hsplit
      · injection hsplit with h1 h2
        subst h1
        have htmp' : (FsOp.apply fs (FsOp.writeChunk tmp c)) tmp = some (c0 ++ [c]) := by
          simp [FsOp.apply, htmp]
        have hpath' : (FsOp.apply fs (FsOp.writeChunk tmp c)) path = fs path := by
          simp [FsOp.apply, hne]
        obtain ⟨ha, hb⟩ := ih (FsOp.apply fs (FsOp.writeChunk tmp c)) (c0 ++ [c])
          pre' suf htmp' h2
        refine ⟨fun hsuf => ?_, fun hsuf => ?_⟩
        · show applyOps (FsOp.apply fs (FsOp.writeChunk tmp c)) pre' path = fs path
          rw [ha hsuf, hpath']
        · show applyOps (FsOp.apply fs (FsOp.writeChunk tmp c)) pre' path = some (c0 ++ c :: cs)
          rw [hb hsuf]
          simp

/-- C5: Session.write_summary writes the complete summary content to the
sibling temp file summary.json.tmp and only then renames it onto
summary.json: along every prefix of the operation trace the final path holds
either its previous content (while operations remain) or the complete summary
content (exactly once the rename has executed), and after the full trace it
holds the complete content. -/
theorem C5_write_summary_atomic (s : Session) (chunks : List String)
    (ops pre suf : List FsOp) (path : String) (fs0 : FileSys)
    (hpath : s.summary_path = some path)
    (htrace : s.write_summary_trace chunks = some ops)
    (hsplit : ops = pre ++ suf) :
    (suf ≠ [] → applyOps fs0 pre path = fs0 path) ∧
    (suf = [] → applyOps fs0 pre path = some chunks) ∧
    applyOps fs0 ops path = some chunks := by
  have hne : path ≠ path ++ ".tmp" := path_ne_tmp path
  have hops : ops = [FsOp.openTrunc (path ++ ".tmp")] ++
      chunks.map (FsOp.writeChunk (path ++ ".tmp")) ++
      [FsOp.rename (path ++ ".tmp") path] := by
    unfold Session.write_summary_trace at htrace
    rcases hdir : s.session_dir with _ | d <;> rw [hdir] at htrace
    · simp at htrace
    · rw [hpath] at htrace
      simp only [Option.getD_some, Option.some.injEq] at htrace
      exact htrace.symm
  subst hops
  have htmp1 : (FsOp.apply fs0 (FsOp.openTrunc (path ++ ".tmp"))) (path ++ ".tmp") =
      some [] := by
    simp [FsOp.apply]
  have hpath1 : (FsOp.apply fs0 (FsOp.openTrunc (path ++ ".tmp"))) path = fs0 path := by
    simp [FsOp.apply, hne]
  have hthird : applyOps fs0
      ([FsOp.openTrunc (path ++ ".tmp")] ++
        chunks.map (FsOp.writeChunk (path ++ ".tmp")) ++
        [FsOp.rename (path ++ ".tmp") path]) path = some chunks := by
    obtain ⟨_, hb⟩ := atomic_inner (path ++ ".tmp") path hne chunks
      (FsOp.apply fs0 (FsOp.openTrunc (path ++ ".tmp"))) []
      (chunks.map (FsOp.writeChunk (path ++ ".tmp")) ++ [FsOp.rename (path ++ ".tmp") path])
      [] htmp1 (by simp)
    have hstep : applyOps fs0
        ([FsOp.openTrunc (path ++ ".tmp")] ++
          chunks.map (FsOp.writeChunk (path ++ ".tmp")) ++
          [FsOp.rename (path ++ ".tmp") path]) path =
        applyOps (FsOp.apply fs0 (FsOp.openTrunc (path ++ ".tmp")))
          (chunks.map (FsOp.writeChunk (path ++ ".tmp")) ++
            [FsOp.rename (path ++ ".tmp") path]) path := rfl
    rw [hstep, hb rfl]
    simp
  rcases pre with _ | ⟨p0, pre'⟩
  · refine ⟨fun _ => rfl, fun hsuf => ?_, hthird⟩
    rw [hsuf] at hsplit
    simp at hsplit
  · have hsplit' : FsOp.openTrunc (path ++ ".tmp") ::
        (chunks.map (FsOp.writeChunk (path ++ ".tmp")) ++
          [FsOp.rename (path ++ ".tmp") path]) = p0 :: (pre' ++ suf) := hsplit
    rw [List.cons.injEq] at hsplit'
    obtain ⟨hp0, hrest⟩ := hsplit'
    subst hp0
    obtain ⟨ha, hb⟩ := atomic_inner (path ++ ".tmp") path hne chunks
      (FsOp.apply fs0 (FsOp.openTrunc (path ++ ".tmp"))) [] pre' suf htmp1 hrest
    refine ⟨fun hsuf => ?_, fun hsuf => ?_, hthird⟩
    · show applyOps (FsOp.apply fs0 (FsOp.openTrunc (path ++ ".tmp"))) pre' path = fs0 path
      rw [ha hsuf, hpath1]
    · show applyOps (FsOp.apply fs0 (FsOp.openTrunc (path ++ ".tmp"))) pre' path = some chunks
      rw [hb hsuf]
      simp

/-- Witness for C5 at a concrete started session and a two-chunk summary:
after the opening and the first chunk write, summary.json is still absent,
and after the full trace it holds the complete content. -/
theorem C5_write_summary_atomic_witness :
    (applyOps (fun _ => none)
      [FsOp.openTrunc ("sessions/session_S/summary.json" ++ ".tmp"),
       FsOp.writeChunk ("sessions/session_S/summary.json" ++ ".tmp") "ab"]
      "sessions/session_S/summary.json" = none) ∧
    (applyOps (fun _ => none)
      [FsOp.openTrunc ("sessions/session_S/summary.json" ++ ".tmp"),
       FsOp.writeChunk ("sessions/session_S/summary.json" ++ ".tmp") "ab",
       FsOp.writeChunk ("sessions/session_S/summary.json" ++ ".tmp") "c",
       FsOp.rename ("sessions/session_S/summary.json" ++ ".tmp")
         "sessions/session_S/summary.json"]
      "sessions/session_S/summary.json" = some ["ab", "c"]) := by
  have h := C5_write_summary_atomic (Session.new.start "S" 0) ["ab", "c"]
    [FsOp.openTrunc ("sessions/session_S/summary.json" ++ ".tmp"),
     FsOp.writeChunk ("sessions/session_S/summary.json" ++ ".tmp") "ab",
     FsOp.writeChunk ("sessions/session_S/summary.json" ++ ".tmp") "c",
     FsOp.rename ("sessions/session_S/summary.json" ++ ".tmp")
       "sessions/session_S/summary.json"]
    [FsOp.openTrunc ("sessions/session_S/summary.json" ++ ".tmp"),
     FsOp.writeChunk ("sessions/session_S/summary.json" ++ ".tmp") "ab"]
    [FsOp.writeChunk ("sessions/session_S/summary.json" ++ ".tmp") "c",
     FsOp.rename ("sessions/session_S/summary.json" ++ ".tmp")
       "sessions/session_S/summary.json"]
    "sessions/session_S/summary.json" (fun _ => none) (by rfl) (by rfl) (by rfl)
  exact ⟨h.1 (by simp), h.2.2⟩

/-- The fold behind pyMaxByVal returns an element of the list with maximal
value, the first such under ties. -/
theorem foldl_voteMax_spec (rest : List (String × ℚ)) :
    ∀ b : String × ℚ,
      ((rest.foldl (fun b x => if b.2 < x.2 then x else b) b) = b ∨
        (rest.foldl (fun b x => if b.2 < x.2 then x else b) b) ∈ rest) ∧
      b.2 ≤ (rest.foldl (fun b x => if b.2 < x.2 then x else b) b).2 ∧
      ∀ x ∈ rest, x.2 ≤ (rest.foldl (fun b x => if b.2 < x.2 then x else b) b).2 := by
  induction rest with
  | nil => intro b; exact ⟨Or.inl rfl, le_refl _, by simp⟩
  | cons x rest ih =>
      intro b
      obtain ⟨hmem, hle, hall⟩ := ih (if b.2 < x.2 then x else b)
      have hbstep : b.2 ≤ (if b.2 < x.2 then x else b).2 := by
        split_ifs with h
        · exact h.le
        · exact le_refl _
      have hxstep : x.2 ≤ (if b.2 < x.2 then x else b).2 := by
        split_ifs with h
        · exact le_refl _
        · exact le_of_not_lt h
      refine ⟨?_, le_trans hbstep hle, ?_⟩
      · rcases hmem with hmem | hmem
        · rw [List.foldl_cons, hmem]
          split_ifs with h
          · exact Or.inr (List.mem_cons_self x rest)
          · exact Or.inl rfl
        · exact Or.inr (List.mem_cons_of_mem x hmem)
      · intro y hy
        rcases List.mem_cons.mp hy with hy | hy
        · subst hy
          exact le_trans hxstep hle
        · exact hall y hy

/-- pyMaxByVal of a nonempty dictionary returns an entry of the dictionary
whose value is maximal. -/
theorem pyMaxByVal_mem_max (l : List (String × ℚ)) (hne : l ≠ []) :
    ∃ kv, pyMaxByVal l = some kv ∧ kv ∈ l ∧ ∀ x ∈ l, x.2 ≤ kv.2 := by
  match l, hne with
  | kv0 :: rest, _ =>
      obtain ⟨hmem, _, hall⟩ := foldl_voteMax_spec rest kv0
      refine ⟨rest.foldl (fun b x => if b.2 < x.2 then x else b) kv0, ?_, ?_, ?_⟩
      · rfl
      · rcases hmem with h | h
        · rw [h]; exact List.mem_cons_self kv0 rest
        · exact List.mem_cons_of_mem kv0 h
      · intro x hx
        rcases List.mem_cons.mp hx with hx | hx
        · subst hx
          exact (foldl_voteMax_spec rest x).2.1
        · exact hall x hx

/-- C4 amended: the classifier vote tally is cleared at the recording-start
transition of the loop and is not cleared by the stop handler;
session_prediction returns the label with maximal summed confidence in the
tally paired with that label's best seen confidence; but the session_summary
message emitted at session end reports the most recent inference's label and
confidence (the LAST_DETECTED_LIFT and LAST_LIFT_CONFIDENCE globals), not the
tally argmax, which session_prediction would supply and which no caller
invokes. -/
theorem C4_amended_votes_and_reported_label (ps : Pipeline) (now : ℚ)
    (cl : LiftClassifierTFLite) :
    ((ps.startTransition).lift_classifier._session_vote_sum = [] ∧
     (ps.startTransition).lift_classifier._session_best_conf = []) ∧
    (handleStop ps now).1.lift_classifier = ps.lift_classifier ∧
    (∀ msg, (handleStop ps now).2.2 = some msg →
        msg.detected_lift = ps.last_detected_lift ∧
        msg.lift_confidence = pyRound 3 ps.last_lift_confidence) ∧
    (cl._session_vote_sum ≠ [] →
      ∃ kv, pyMaxByVal cl._session_vote_sum = some kv ∧
        kv ∈ cl._session_vote_sum ∧
        (∀ x ∈ cl._session_vote_sum, x.2 ≤ kv.2) ∧
        cl.session_prediction = (some kv.1, dictGet cl._session_best_conf kv.1 0)) := by
  refine ⟨⟨rfl, rfl⟩, ?_, ?_, ?_⟩
  · unfold handleStop
    dsimp only
    split <;> rfl
  · intro msg h
    unfold handleStop at h
    dsimp only at h
    split at h
    · injection h with h
      subst h
      exact ⟨rfl, rfl⟩
    · exact absurd h (by simp)
  · intro hne
    obtain ⟨kv, hmax, hmem, hall⟩ := pyMaxByVal_mem_max _ hne
    refine ⟨kv, hmax, hmem, hall, ?_⟩
    unfold LiftClassifierTFLite.session_prediction
    rw [hmax]

/-- Evaluation: the label of the most recent (third) inference is B. -/
theorem c4push3_label : c4push3.2.1 = "B" := by
  norm_num [c4push3, c4push2, c4push1, c4cl0, LiftClassifierTFLite.push_sample_tail,
    LiftClassifierTFLite._record_session_vote, npArgmax, pyIndex, pyMax,
    dictGet, dictSet, List.findIdx, List.findIdx.go, max_def,
    show ¬("A" = "" ∨ "A" = "unknown") by decide,
    show ((1 : ℚ) / 10 == 9 / 10) = false from beq_eq_false_iff_ne.mpr (by norm_num)]

/-- Evaluation: the accumulated vote sums are A: 1.4 and B: 0.9. -/
theorem c4push3_vote_sum :
    c4push3.1._session_vote_sum = [("A", 7 / 5), ("B", 9 / 10)] := by
  norm_num [c4push3, c4push2, c4push1, c4cl0, LiftClassifierTFLite.push_sample_tail,
    LiftClassifierTFLite._record_session_vote, npArgmax, pyIndex, pyMax,
    dictGet, dictSet, List.findIdx, List.findIdx.go, max_def,
    show ¬("A" = "" ∨ "A" = "unknown") by decide,
    show ¬("B" = "" ∨ "B" = "unknown") by decide,
    show ((1 : ℚ) / 10 == 9 / 10) = false from beq_eq_false_iff_ne.mpr (by norm_num),
    show (("A" : String) == "B") = false by decide,
    show (("B" : String) == "A") = false by decide,
    show ¬(("A" : String) = "B") by decide,
    show ¬(("B" : String) = "A") by decide]

/-- Evaluation: the session prediction is A with best confidence 0.7. -/
theorem c4push3_prediction :
    c4push3.1.session_prediction = (some "A", 7 / 10) := by
  norm_num [c4push3, c4push2, c4push1, c4cl0, LiftClassifierTFLite.push_sample_tail,
    LiftClassifierTFLite._record_session_vote, LiftClassifierTFLite.session_prediction,
    npArgmax, pyIndex, pyMax, pyMaxByVal, dictGet, dictSet,
    List.findIdx, List.findIdx.go, max_def,
    show ¬("A" = "" ∨ "A" = "unknown") by decide,
    show ¬("B" = "" ∨ "B" = "unknown") by decide,
    show ((1 : ℚ) / 10 == 9 / 10) = false from beq_eq_false_iff_ne.mpr (by norm_num),
    show (("A" : String) == "B") = false by decide,
    show (("B" : String) == "A") = false by decide,
    show ¬(("A" : String) = "B") by decide,
    show ¬(("B" : String) = "A") by decide]

/-- C4 counterexample: in a session whose inferences voted A (0.7), A (0.7),
B (0.9), the tally argmax is A, but the session_summary message emitted at
stop reports label B, the most recent inference; so the label reported at
session end is not the argmax of the tally. -/
theorem C4_counterexample :
    c4ps.sess.active = true ∧
    c4push3.2.1 = "B" ∧
    ((handleStop c4ps 5).2.2).map SessionSummaryMsg.detected_lift = some (some "B") ∧
    c4ps.lift_classifier.session_prediction = (some "A", 7 / 10) ∧
    (some "A" : Option String) ≠ some "B" := by
  have hstop : ((handleStop c4ps 5).2.2).map SessionSummaryMsg.detected_lift =
      some (some c4push3.2.1) := rfl
  refine ⟨rfl, c4push3_label, ?_, c4push3_prediction, by decide⟩
  rw [hstop, c4push3_label]

/-- Witness for the C4 amended theorem at the concrete vote state. -/
theorem C4_amended_votes_and_reported_label_witness :
    c4push3.1._session_vote_sum ≠ [] ∧
    ∃ kv, pyMaxByVal c4push3.1._session_vote_sum = some kv ∧
      kv ∈ c4push3.1._session_vote_sum ∧
      (∀ x ∈ c4push3.1._session_vote_sum, x.2 ≤ kv.2) ∧
      c4push3.1.session_prediction =
        (some kv.1, dictGet c4push3.1._session_best_conf kv.1 0) :=
  have hne : c4push3.1._session_vote_sum ≠ [] := by
    rw [c4push3_vote_sum]
    simp
  ⟨hne, (C4_amended_votes_and_reported_label c4ps 5 c4push3.1).2.2.2 hne⟩

/-- Session.update_tut mutates only moving_time and the motion timestamp. -/
theorem Session.update_tut_frame (s : Session) (m : RCState) (t : ℚ) :
    (s.update_tut m t).reps = s.reps ∧
    (s.update_tut m t).peak_gyro_per_rep = s.peak_gyro_per_rep ∧
    (s.update_tut m t).speed_proxy_per_rep = s.speed_proxy_per_rep ∧
    (s.update_tut m t).velocity_per_rep = s.velocity_per_rep ∧
    (s.update_tut m t).rom_per_rep = s.rom_per_rep ∧
    (s.update_tut m t).active = s.active := by
  unfold Session.update_tut
  cases hm : s._last_motion_t <;> dsimp only <;> split_ifs <;>
    exact ⟨rfl, rfl, rfl, rfl, rfl, rfl⟩

/-- Session.update_peak mutates only the current-rep peak. -/
theorem Session.update_peak_frame (s : Session) (la : ℚ) :
    (s.update_peak la).reps = s.reps ∧
    (s.update_peak la).peak_gyro_per_rep = s.peak_gyro_per_rep ∧
    (s.update_peak la).speed_proxy_per_rep = s.speed_proxy_per_rep ∧
    (s.update_peak la).velocity_per_rep = s.velocity_per_rep ∧
    (s.update_peak la).rom_per_rep = s.rom_per_rep ∧
    (s.update_peak la).active = s.active := by
  unfold Session.update_peak
  split_ifs <;> exact ⟨rfl, rfl, rfl, rfl, rfl, rfl⟩

/-- Session.update_speed_proxy mutates only the speed-proxy accumulators. -/
theorem Session.update_speed_proxy_frame (s : Session) (la : ℚ) :
    (s.update_speed_proxy la).reps = s.reps ∧
    (s.update_speed_proxy la).peak_gyro_per_rep = s.peak_gyro_per_rep ∧
    (s.update_speed_proxy la).speed_proxy_per_rep = s.speed_proxy_per_rep ∧
    (s.update_speed_proxy la).velocity_per_rep = s.velocity_per_rep ∧
    (s.update_speed_proxy la).rom_per_rep = s.rom_per_rep ∧
    (s.update_speed_proxy la).active = s.active := by
  unfold Session.update_speed_proxy
  dsimp only
  split_ifs <;> exact ⟨rfl, rfl, rfl, rfl, rfl, rfl⟩

/-- The TUT, peak and speed-proxy session updates of a tick together leave
the rep count, the four per-rep sequences and the active flag unchanged. -/
theorem Session.tick_sess_frame (s : Session) (m : RCState) (t la : ℚ) :
    (Session.update_speed_proxy ((s.update_tut m t).update_peak la) la).reps = s.reps ∧
    (Session.update_speed_proxy ((s.update_tut m t).update_peak la) la).peak_gyro_per_rep
      = s.peak_gyro_per_rep ∧
    (Session.update_speed_proxy ((s.update_tut m t).update_peak la) la).speed_proxy_per_rep
      = s.speed_proxy_per_rep ∧
    (Session.update_speed_proxy ((s.update_tut m t).update_peak la) la).velocity_per_rep
      = s.velocity_per_rep ∧
    (Session.update_speed_proxy ((s.update_tut m t).update_peak la) la).rom_per_rep
      = s.rom_per_rep ∧
    (Session.update_speed_proxy ((s.update_tut m t).update_peak la) la).active
      = s.active := by
  obtain ⟨a1, a2, a3, a4, a5, a6⟩ := Session.update_tut_frame s m t
  obtain ⟨b1, b2, b3, b4, b5, b6⟩ := Session.update_peak_frame (s.update_tut m t) la
  obtain ⟨d1, d2, d3, d4, d5, d6⟩ :=
    Session.update_speed_proxy_frame ((s.update_tut m t).update_peak la) la
  exact ⟨d1.trans (b1.trans a1), d2.trans (b2.trans a2), d3.trans (b3.trans a3),
         d4.trans (b4.trans a4), d5.trans (b5.trans a5), d6.trans (b6.trans a6)⟩

/-- The first half of a tick leaves the session rep count, the per-rep
sequences, the active flag, the session counter, the rep latch and the
was_recording flag unchanged. -/
theorem Pipeline.preTick_frame (ps : Pipeline) (inp : TickInput) :
    (ps.preTick inp).sess.reps = ps.sess.reps ∧
    (ps.preTick inp).sess.peak_gyro_per_rep = ps.sess.peak_gyro_per_rep ∧
    (ps.preTick inp).sess.speed_proxy_per_rep = ps.sess.speed_proxy_per_rep ∧
    (ps.preTick inp).sess.velocity_per_rep = ps.sess.velocity_per_rep ∧
    (ps.preTick inp).sess.rom_per_rep = ps.sess.rom_per_rep ∧
    (ps.preTick inp).sess.active = ps.sess.active ∧
    (ps.preTick inp).session_counter = ps.session_counter ∧
    (ps.preTick inp).last_session_reps = ps.last_session_reps ∧
    (ps.preTick inp).was_recording = ps.was_recording := by
  unfold Pipeline.preTick
  cases hv : inp.infer_out_vec <;> dsimp only <;>
    exact ⟨(Session.tick_sess_frame _ _ _ _).1,
      (Session.tick_sess_frame _ _ _ _).2.1,
      (Session.tick_sess_frame _ _ _ _).2.2.1,
      (Session.tick_sess_frame _ _ _ _).2.2.2.1,
      (Session.tick_sess_frame _ _ _ _).2.2.2.2.1,
      (Session.tick_sess_frame _ _ _ _).2.2.2.2.2,
      rfl, rfl, rfl⟩

/-- RepCounter.update returns the mutated rep count, which grows by zero or
one. -/
theorem RepCounter.update_reps_cases (c : RepCounter) (gx gy gz t : ℚ) :
    (c.update gx gy gz t).2.1 = (c.update gx gy gz t).1.reps ∧
    ((c.update gx gy gz t).1.reps = c.reps ∨
      (c.update gx gy gz t).1.reps = c.reps + 1) := by
  unfold RepCounter.update
  dsimp only
  cases c.state <;> dsimp only <;> split_ifs <;>
    first
      | exact ⟨rfl, Or.inl rfl⟩
      | exact ⟨rfl, Or.inr rfl⟩

/-- A counter in the WAITING state never increments on update. -/
theorem RepCounter.update_waiting (c : RepCounter) (gx gy gz t : ℚ)
    (h : c.state = RCState.WAITING) :
    (c.update gx gy gz t).1.reps = c.reps ∧ (c.update gx gy gz t).2.1 = c.reps := by
  unfold RepCounter.update
  dsimp only
  rw [h]
  dsimp only
  split_ifs <;> exact ⟨rfl, rfl⟩

/-- Session.on_rep_event mutates only the tempo list and its timestamp. -/
theorem Session.on_rep_event_frame (s : Session) (i : ℕ) (t : ℚ) :
    ((s.on_rep_event i t).1).reps = s.reps ∧
    ((s.on_rep_event i t).1).peak_gyro_per_rep = s.peak_gyro_per_rep ∧
    ((s.on_rep_event i t).1).speed_proxy_per_rep = s.speed_proxy_per_rep ∧
    ((s.on_rep_event i t).1).velocity_per_rep = s.velocity_per_rep ∧
    ((s.on_rep_event i t).1).rom_per_rep = s.rom_per_rep ∧
    ((s.on_rep_event i t).1).active = s.active := by
  unfold Session.on_rep_event
  cases hm : s._last_rep_event_t <;> dsimp only <;>
    first
      | exact ⟨rfl, rfl, rfl, rfl, rfl, rfl⟩
      | split_ifs <;> exact ⟨rfl, rfl, rfl, rfl, rfl, rfl⟩

/-- The rep-event finalization chain appends exactly one entry to each of the
four per-rep sequences and leaves the rep count and active flag unchanged. -/
theorem Session.rep_event_chain (s : Session) (i : ℕ) (t v rm : ℚ) :
    ((((((s.on_rep_event i t).1.finalize_rep_peak).1.finalize_speed_proxy).1.store_velocity_metric
        v).store_rom_metric rm).peak_gyro_per_rep.length = s.peak_gyro_per_rep.length + 1) ∧
    ((((((s.on_rep_event i t).1.finalize_rep_peak).1.finalize_speed_proxy).1.store_velocity_metric
        v).store_rom_metric rm).speed_proxy_per_rep.length = s.speed_proxy_per_rep.length + 1) ∧
    ((((((s.on_rep_event i t).1.finalize_rep_peak).1.finalize_speed_proxy).1.store_velocity_metric
        v).store_rom_metric rm).velocity_per_rep.length = s.velocity_per_rep.length + 1) ∧
    ((((((s.on_rep_event i t).1.finalize_rep_peak).1.finalize_speed_proxy).1.store_velocity_metric
        v).store_rom_metric rm).rom_per_rep.length = s.rom_per_rep.length + 1) ∧
    ((((((s.on_rep_event i t).1.finalize_rep_peak).1.finalize_speed_proxy).1.store_velocity_metric
        v).store_rom_metric rm).reps = s.reps) ∧
    ((((((s.on_rep_event i t).1.finalize_rep_peak).1.finalize_speed_proxy).1.store_velocity_metric
        v).store_rom_metric rm).active = s.active) := by
  obtain ⟨e1, e2, e3, e4, e5, e6⟩ := Session.on_rep_event_frame s i t
  unfold Session.finalize_rep_peak Session.finalize_speed_proxy
    Session.store_velocity_metric Session.store_rom_metric
  dsimp only
  simp [e1, e2, e3, e4, e5, e6]

/-- The rep-event block does nothing on an inactive session. -/
theorem Pipeline.recBlock_inactive (ps : Pipeline) (inp : TickInput)
    (hA : ps.sess.active = false) :
    ps.recBlock inp = ps := by
  unfold Pipeline.recBlock
  rw [hA]
  simp

/-- On an active session whose counter, latch and per-rep sequences agree
with the session rep count, the rep-event block restores that agreement and
never decreases the rep count. -/
theorem Pipeline.recBlock_synced (ps : Pipeline) (inp : TickInput)
    (hA : ps.sess.active = true)
    (hsync : ps.session_counter.reps = ps.sess.reps)
    (hlast : ps.last_session_reps = ps.sess.reps)
    (h1 : ps.sess.peak_gyro_per_rep.length = ps.sess.reps)
    (h2 : ps.sess.speed_proxy_per_rep.length = ps.sess.reps)
    (h3 : ps.sess.velocity_per_rep.length = ps.sess.reps)
    (h4 : ps.sess.rom_per_rep.length = ps.sess.reps) :
    (ps.recBlock inp).sess.peak_gyro_per_rep.length = (ps.recBlock inp).sess.reps ∧
    (ps.recBlock inp).sess.speed_proxy_per_rep.length = (ps.recBlock inp).sess.reps ∧
    (ps.recBlock inp).sess.velocity_per_rep.length = (ps.recBlock inp).sess.reps ∧
    (ps.recBlock inp).sess.rom_per_rep.length = (ps.recBlock inp).sess.reps ∧
    (ps.recBlock inp).sess.active = true ∧
    (ps.recBlock inp).session_counter.reps = (ps.recBlock inp).sess.reps ∧
    (ps.recBlock inp).last_session_reps = (ps.recBlock inp).sess.reps ∧
    (ps.recBlock inp).was_recording = ps.was_recording ∧
    ps.sess.reps ≤ (ps.recBlock inp).sess.reps := by
  obtain ⟨heq, hor⟩ :=
    RepCounter.update_reps_cases ps.session_counter inp.gx inp.gy inp.gz inp.t
  obtain ⟨k1, k2, k3, k4, k5, k6⟩ :=
    Session.rep_event_chain ps.sess
      (ps.session_counter.update inp.gx inp.gy inp.gz inp.t).2.1 inp.t
      (ps.velocity_estimator.on_rep_complete).2.peak_velocity
      (ps.rom_estimator.on_rep_complete).2
  unfold Pipeline.recBlock
  rw [if_pos hA]
  dsimp only
  split_ifs with hgt <;> dsimp only
  · refine ⟨?_, ?_, ?_, ?_, ?_, ?_, rfl, rfl, ?_⟩
    · rw [k1, h1]; omega
    · rw [k2, h2]; omega
    · rw [k3, h3]; omega
    · rw [k4, h4]; omega
    · rw [k6]; exact hA
    · omega
    · omega
  · refine ⟨?_, ?_, ?_, ?_, hA, heq.symm, rfl, rfl, ?_⟩
    · rw [h1]; omega
    · rw [h2]; omega
    · rw [h3]; omega
    · rw [h4]; omega
    · omega

/-- On an active session with a WAITING session counter that is not ahead of
the latch, the rep-event block sets the session rep count to the counter's
count. -/
theorem Pipeline.recBlock_waiting (ps : Pipeline) (inp : TickInput)
    (hA : ps.sess.active = true)
    (hS : ps.session_counter.state = RCState.WAITING)
    (hng : ¬ ps.session_counter.reps > ps.last_session_reps) :
    (ps.recBlock inp).sess.reps = ps.session_counter.reps ∧
    (ps.recBlock inp).sess.active = ps.sess.active := by
  obtain ⟨hw1, hw2⟩ :=
    RepCounter.update_waiting ps.session_counter inp.gx inp.gy inp.gz inp.t hS
  unfold Pipeline.recBlock
  rw [if_pos hA]
  try dsimp only
  rw [hw2]
  rw [if_neg hng]
  exact ⟨rfl, rfl⟩

/-- A reset tick with no recording-start pending: the state machine takes the
already-latched path. -/
theorem Pipeline.recTick_inactive (ps : Pipeline) (inp : TickInput)
    (hA : ps.sess.active = false) :
    ps.recTick inp = { ps with was_recording := false } := by
  unfold Pipeline.recTick
  rw [hA]
  simp only [Bool.false_and, Bool.false_eq_true, if_false]
  try dsimp only
  try rw [hA]
  exact Pipeline.recBlock_inactive _ inp hA

/-- With the session already latched, the second half of a tick is the
rep-event block alone. -/
theorem Pipeline.recTick_latched (ps : Pipeline) (inp : TickInput)
    (hA : ps.sess.active = true) (hW : ps.was_recording = true) :
    ps.recTick inp = Pipeline.recBlock { ps with was_recording := true } inp := by
  unfold Pipeline.recTick
  rw [hA, hW]
  simp [hA]

/-- On the first tick that observes a newly active session, the second half
of a tick is the recording-start transition followed by the rep-event
block. -/
theorem Pipeline.recTick_start (ps : Pipeline) (inp : TickInput)
    (hA : ps.sess.active = true) (hW : ps.was_recording = false) :
    ps.recTick inp =
      Pipeline.recBlock { ps.startTransition with was_recording := true } inp := by
  unfold Pipeline.recTick
  rw [hA, hW]
  simp [Pipeline.startTransition, Session._reset_metrics, hA]

/-- The first half of a tick preserves the recording invariant. -/
theorem Pipeline.preTick_RepInv (ps : Pipeline) (inp : TickInput) (h : RepInv ps) :
    RepInv (ps.preTick inp) := by
  obtain ⟨f1, f2, f3, f4, f5, f6, f7, f8, f9⟩ := Pipeline.preTick_frame ps inp
  unfold RepInv at h ⊢
  rw [f1, f2, f3, f4, f5, f6, f7, f8, f9]
  exact h

/-- The second half of a tick preserves the recording invariant and never
decreases the session rep count. -/
theorem Pipeline.recTick_RepInv (ps : Pipeline) (inp : TickInput) (h : RepInv ps) :
    RepInv (ps.recTick inp) ∧ ps.sess.reps ≤ (ps.recTick inp).sess.reps := by
  obtain ⟨h1, h2, h3, h4, h5⟩ := h
  cases hA : ps.sess.active with
  | false =>
      rw [Pipeline.recTick_inactive ps inp hA]
      refine ⟨⟨h1, h2, h3, h4, fun hact => ?_⟩, le_refl _⟩
      have hact' : ps.sess.active = true := hact
      rw [hA] at hact'
      exact Bool.noConfusion hact'
  | true =>
      cases hW : ps.was_recording with
      | true =>
          rw [Pipeline.recTick_latched ps inp hA hW]
          obtain ⟨hsc, hls⟩ := (h5 hA).1 hW
          obtain ⟨g1, g2, g3, g4, g5, g6, g7, g8, g9⟩ :=
            Pipeline.recBlock_synced { ps with was_recording := true } inp
              hA hsc hls h1 h2 h3 h4
          refine ⟨⟨g1, g2, g3, g4, fun _ => ⟨fun _ => ⟨g6, g7⟩, fun hwf => ?_⟩⟩, g9⟩
          rw [g8] at hwf
          exact Bool.noConfusion hwf
      | false =>
          rw [Pipeline.recTick_start ps inp hA hW]
          have hz : ps.sess.reps = 0 := (h5 hA).2 hW
          obtain ⟨g1, g2, g3, g4, g5, g6, g7, g8, g9⟩ :=
            Pipeline.recBlock_synced { ps.startTransition with was_recording := true }
              inp hA hz.symm hz.symm hz.symm hz.symm hz.symm hz.symm
          refine ⟨⟨g1, g2, g3, g4, fun _ => ⟨fun _ => ⟨g6, g7⟩, fun hwf => ?_⟩⟩, ?_⟩
          · rw [g8] at hwf
            exact Bool.noConfusion hwf
          · rw [hz]
            exact Nat.zero_le _

/-- The reset handler leaves the pipeline in a state satisfying the
recording invariant. -/
theorem Pipeline.resetHandling_RepInv (ps : Pipeline) : RepInv ps.resetHandling := by
  exact ⟨rfl, rfl, rfl, rfl, fun _ => ⟨fun _ => ⟨rfl, rfl⟩, fun _ => rfl⟩⟩

/-- The start handler establishes the recording invariant as long as the loop
has already drained the previous session (was_recording false). -/
theorem handleStart_RepInv (ps : Pipeline) (sid : String) (now : ℚ)
    (h : RepInv ps) (hw : ps.was_recording = false) :
    RepInv ((handleStart ps sid now).1) := by
  unfold handleStart
  dsimp only
  split_ifs with hA
  · refine ⟨rfl, rfl, rfl, rfl, fun _ => ⟨fun hwr => ?_, fun _ => rfl⟩⟩
    have hwr' : ps.was_recording = true := hwr
    rw [hw] at hwr'
    exact Bool.noConfusion hwr'
  · exact h

/-- The stop handler preserves the recording invariant. -/
theorem handleStop_RepInv (ps : Pipeline) (now : ℚ) (h : RepInv ps) :
    RepInv ((handleStop ps now).1) := by
  obtain ⟨h1, h2, h3, h4, h5⟩ := h
  unfold handleStop
  dsimp only
  split_ifs with hA
  · refine ⟨h1, h2, h3, h4, fun hact => ?_⟩
    exact Bool.noConfusion (hact : false = true)
  · exact ⟨h1, h2, h3, h4, h5⟩

/-- C1 amended: after every tick (reset or not) the four per-rep metric
sequences have length equal to the session rep count, and while the loop has
latched the active session the session counter and rep latch agree with it;
the rep count is monotonically non-decreasing across ticks without a reset
request (a reset request zeroes it, see the counterexample); the start
handler establishes the invariant whenever the loop has drained the previous
session, and the stop handler preserves it. -/
theorem C1_amended_rep_count_invariant (ps : Pipeline) (inp : TickInput)
    (r : Bool) (sid : String) (now : ℚ) (h : RepInv ps) :
    RepInv (ps.tick r inp) ∧
    (r = false → ps.sess.reps ≤ (ps.tick r inp).sess.reps) ∧
    (ps.was_recording = false → RepInv ((handleStart ps sid now).1)) ∧
    RepInv ((handleStop ps now).1) := by
  refine ⟨?_, ?_, fun hw => handleStart_RepInv ps sid now h hw,
    handleStop_RepInv ps now h⟩
  · cases r with
    | false =>
        exact (Pipeline.recTick_RepInv (ps.preTick inp) inp
          (Pipeline.preTick_RepInv ps inp h)).1
    | true =>
        exact (Pipeline.recTick_RepInv ((ps.resetHandling).preTick inp) inp
          (Pipeline.preTick_RepInv ps.resetHandling inp
            (Pipeline.resetHandling_RepInv ps))).1
  · intro hr
    subst hr
    have he : ps.sess.reps = ((ps.preTick inp)).sess.reps :=
      (Pipeline.preTick_frame ps inp).1.symm
    rw [he]
    exact (Pipeline.recTick_RepInv (ps.preTick inp) inp
      (Pipeline.preTick_RepInv ps inp h)).2

/-- Witness for the C1 amended theorem at the freshly initialized pipeline
and a zero-motion tick. -/
theorem C1_amended_rep_count_invariant_witness :
    RepInv (Pipeline.init [] (6 / 10)) ∧
    RepInv ((Pipeline.init [] (6 / 10)).tick false zeroInput) ∧
    RepInv ((handleStart (Pipeline.init [] (6 / 10)) "S" 1).1) ∧
    RepInv ((handleStop (Pipeline.init [] (6 / 10)) 1).1) := by
  have h : RepInv (Pipeline.init [] (6 / 10)) := by decide
  have happ :=
    C1_amended_rep_count_invariant (Pipeline.init [] (6 / 10)) zeroInput false "S" 1 h
  exact ⟨h, happ.1, happ.2.2.1 (by decide), happ.2.2.2⟩

/-- C1 counterexample: in a mid-session state satisfying the invariant with
two counted reps, a tick that observes a pending reset request zeroes the rep
count while the session stays active, so the rep count is not monotonically
non-decreasing within a session. -/
theorem C1_counterexample :
    RepInv c1cex ∧
    c1cex.sess.active = true ∧
    c1cex.sess.reps = 2 ∧
    (c1cex.tick true zeroInput).sess.active = true ∧
    (c1cex.tick true zeroInput).sess.reps = 0 := by
  obtain ⟨f1, f2, f3, f4, f5, f6, f7, f8, f9⟩ :=
    Pipeline.preTick_frame (c1cex.resetHandling) zeroInput
  have hA1 : ((c1cex.resetHandling).preTick zeroInput).sess.active = true :=
    f6.trans rfl
  have hW1 : ((c1cex.resetHandling).preTick zeroInput).was_recording = true :=
    f9.trans rfl
  have hsc : ((c1cex.resetHandling).preTick zeroInput).session_counter =
      RepCounter.new THRESHOLD MIN_REP_TIME ALPHA := f7.trans rfl
  have hr0 : ((c1cex.resetHandling).preTick zeroInput).session_counter.reps = 0 := by
    rw [hsc]
    rfl
  have hl0 : ((c1cex.resetHandling).preTick zeroInput).last_session_reps = 0 :=
    f8.trans rfl
  have hrec : c1cex.tick true zeroInput =
      Pipeline.recBlock
        { (c1cex.resetHandling).preTick zeroInput with was_recording := true }
        zeroInput := by
    show ((c1cex.resetHandling).preTick zeroInput).recTick zeroInput = _
    exact Pipeline.recTick_latched _ zeroInput hA1 hW1
  have hwt := Pipeline.recBlock_waiting
      { (c1cex.resetHandling).preTick zeroInput with was_recording := true }
      zeroInput hA1 (by rw [hsc]; rfl) (by rw [hr0, hl0]; omega)
  refine ⟨by decide, rfl, rfl, ?_, ?_⟩
  · rw [hrec, hwt.2]
    exact hA1
  · rw [hrec, hwt.1]
    exact hr0

end LiftIQ
